import Mathlib

/-!
Shallow embedding of the frame-update core of a 2D tile platformer
(the game loop, collision resolver, monster/hazard/projectile/explosive
controllers and puzzle logic), together with theorems checking the
stated properties of those operations.

Pixel-space coordinates and velocities are modelled as rationals,
counters and timers as integers, the tile grid as a list of rows of
numeric tile codes.  Wall-clock fields (`time`, `startTime`) are
outside the simulation core and are not modelled.
-/

namespace TLP

/-- Tile side length in pixels (`TILE_SIZE = 40`). -/
def TILE_SIZE : ℚ := 40

/-- Per-tick gravity acceleration (`GRAVITY = 0.5`). -/
def GRAVITY : ℚ := 1/2

/-- Horizontal move speed (`MOVE_SPEED = 4`). -/
def MOVE_SPEED : ℚ := 4

/-- Blast radius of a placed bomb in tiles (`BOMB_BLAST_RADIUS = 2`). -/
def BOMB_BLAST_RADIUS : ℤ := 2

namespace TileType

/-- Tile code 0. -/
def Empty : ℕ := 0

/-- Tile code 1. -/
def Wall : ℕ := 1

/-- Tile code 2 (destructible). -/
def Stone : ℕ := 2

/-- Tile code 3 (hazard). -/
def Lava : ℕ := 3

/-- Tile code 10. -/
def Platform : ℕ := 10

end TileType

/-- An axis-aligned rectangle `{x, y, width, height}`. -/
structure Rect where
  x : ℚ
  y : ℚ
  width : ℚ
  height : ℚ
  deriving DecidableEq

/-- AABB overlap test, after `checkCollision` in gameState. -/
def checkCollision (a b : Rect) : Bool :=
  decide (a.x < b.x + b.width) && decide (a.x + a.width > b.x) &&
    decide (a.y < b.y + b.height) && decide (a.y + a.height > b.y)

/-- The player record. -/
structure PlayerState where
  x : ℚ
  y : ℚ
  width : ℚ
  height : ℚ
  velocityX : ℚ
  velocityY : ℚ
  onGround : Bool
  hasWeapon : Bool
  facingRight : Bool
  shaking : Bool
  shakeTimer : ℤ
  deriving DecidableEq

/-- The player's bounding rectangle. -/
def PlayerState.rect (p : PlayerState) : Rect :=
  ⟨p.x, p.y, p.width, p.height⟩

/-- Positional correction of the player against a static box, after
`resolveCollision` in gameState: push out along the side of least
overlap, zeroing the corresponding velocity component; a downward
vertical correction also sets `onGround`. -/
def resolveCollision (player : PlayerState) (box : Rect) : PlayerState :=
  let overlapLeft := player.x + player.width - box.x
  let overlapRight := box.x + box.width - player.x
  let overlapTop := player.y + player.height - box.y
  let overlapBottom := box.y + box.height - player.y
  let minOverlap := min (min (min overlapLeft overlapRight) overlapTop) overlapBottom
  if minOverlap = overlapTop ∧ player.velocityY > 0 then
    { player with y := box.y - player.height, velocityY := 0, onGround := true }
  else if minOverlap = overlapBottom ∧ player.velocityY < 0 then
    { player with y := box.y + box.height, velocityY := 0 }
  else if minOverlap = overlapLeft then
    { player with x := box.x - player.width, velocityX := 0 }
  else if minOverlap = overlapRight then
    { player with x := box.x + box.width, velocityX := 0 }
  else
    player

/-- Horizontal input, after `movePlayerHorizontal` in gameState. -/
def movePlayerHorizontal (player : PlayerState) (direction : ℤ) : PlayerState :=
  if direction = 0 then
    { player with velocityX := player.velocityX * 0.85 }
  else
    { player with velocityX := MOVE_SPEED * (direction : ℚ),
                  facingRight := decide (direction > 0) }

/-- Gravity application with terminal speed 15, after `applyGravity`. -/
def applyGravity (player : PlayerState) : PlayerState :=
  let v := player.velocityY + GRAVITY
  { player with velocityY := if v > 15 then 15 else v }

/-- A monster: position, patrol column bounds, direction (±1), speed,
size, health. -/
structure MonsterState where
  x : ℚ
  y : ℚ
  patrol : ℤ × ℤ
  direction : ℤ
  speed : ℚ
  width : ℚ
  height : ℚ
  health : ℤ
  deriving DecidableEq

/-- The monster's bounding rectangle. -/
def MonsterState.rect (m : MonsterState) : Rect :=
  ⟨m.x, m.y, m.width, m.height⟩

/-- Collectible kind tag. -/
inductive CollectibleType
  | key
  | weapon
  | bomb
  | heart
  | coin
  deriving DecidableEq

/-- A collectible pickup. -/
structure CollectibleState where
  x : ℚ
  y : ℚ
  width : ℚ
  height : ℚ
  type : CollectibleType
  collected : Bool
  deriving DecidableEq

/-- The collectible's bounding rectangle. -/
def CollectibleState.rect (c : CollectibleState) : Rect :=
  ⟨c.x, c.y, c.width, c.height⟩

/-- A door at a grid cell with a monotonic open flag (the source field
`open` is a reserved word in Lean, so it is rendered `isOpen`). -/
structure DoorState where
  x : ℤ
  y : ℤ
  isOpen : Bool
  deriving DecidableEq

/-- A projectile. -/
structure BulletState where
  x : ℚ
  y : ℚ
  velocityX : ℚ
  width : ℚ
  height : ℚ
  deriving DecidableEq

/-- The bullet's bounding rectangle. -/
def BulletState.rect (b : BulletState) : Rect :=
  ⟨b.x, b.y, b.width, b.height⟩

/-- A placed bomb at a grid cell with a countdown timer. -/
structure PlacedBomb where
  x : ℤ
  y : ℤ
  timer : ℤ
  deriving DecidableEq

/-- A grid cell position. -/
structure GridPosition where
  x : ℤ
  y : ℤ
  deriving DecidableEq

/-- Emission direction of a fire trap. -/
inductive FireTrapDirection
  | up
  | down
  | left
  | right
  deriving DecidableEq

/-- A timed directional fire trap. -/
structure FireTrapState where
  x : ℤ
  y : ℤ
  direction : FireTrapDirection
  sprayDistance : ℤ
  sprayTime : ℤ
  restTime : ℤ
  timer : ℤ
  isActive : Bool
  warning : Bool
  fireBlocks : List GridPosition
  deriving DecidableEq

/-- The tile grid: rows of tile codes. -/
abbrev Grid := List (List ℕ)

/-- Number of rows (`grid.length`). -/
def gridRows (g : Grid) : ℕ := g.length

/-- Number of columns (`grid[0].length`). -/
def gridCols (g : Grid) : ℕ := (g.headD []).length

/-- Tile lookup; used only below in-bounds guards, defaulting to Empty. -/
def getTile (g : Grid) (y x : ℤ) : ℕ :=
  (g.getD y.toNat []).getD x.toNat TileType.Empty

/-- The pixel box of a grid cell. -/
def tileBox (x y : ℤ) : Rect :=
  ⟨(x : ℚ) * TILE_SIZE, (y : ℚ) * TILE_SIZE, TILE_SIZE, TILE_SIZE⟩

/-- The full game snapshot (wall-clock fields omitted). -/
structure GameState where
  keys : ℤ
  ammo : ℤ
  bombCount : ℤ
  deaths : ℕ
  health : ℤ
  maxHealth : ℤ
  damageTimer : ℤ
  grid : Grid
  monsters : List MonsterState
  collectibles : List CollectibleState
  doors : List DoorState
  bullets : List BulletState
  placedBombs : List PlacedBomb
  firetraps : List FireTrapState
  goalPos : Option GridPosition
  player : PlayerState
  animationFrame : ℕ
  deriving DecidableEq

/-- The per-tick event record. -/
structure GameUpdateEvents where
  levelComplete : Bool
  playerDied : Bool
  doorOpened : Bool
  tookDamage : Bool
  itemCollected : Bool
  bombExploded : Bool
  deriving DecidableEq

/-- The pressed-key flags consumed by the frame update. -/
structure KeyMap where
  arrowLeft : Bool
  arrowRight : Bool
  lowerA : Bool
  upperA : Bool
  lowerD : Bool
  upperD : Bool
  deriving DecidableEq

/-- The `(dy, dx)` scan order of `handleTileCollisions`. -/
def neighborhoodOffsets : List (ℤ × ℤ) :=
  [(-1,-1),(-1,0),(-1,1),(-1,2),
   (0,-1),(0,0),(0,1),(0,2),
   (1,-1),(1,0),(1,1),(1,2),
   (2,-1),(2,0),(2,1),(2,2)]

/-- Tiles solid for the player (Wall, Stone, Lava, Platform). -/
def playerSolidTile (t : ℕ) : Bool :=
  decide (t = TileType.Wall) || decide (t = TileType.Stone) ||
    decide (t = TileType.Lava) || decide (t = TileType.Platform)

/-- Player-versus-terrain resolution, after `handleTileCollisions`:
clears `onGround`, resolves against solid tiles in a 4x4 neighborhood,
then against four boundary walls, then against fire-trap footprints. -/
def handleTileCollisions (g : Grid) (traps : List FireTrapState)
    (player0 : PlayerState) : PlayerState :=
  let player := { player0 with onGround := false }
  let gridX : ℤ := Int.floor (player.x / TILE_SIZE)
  let gridY : ℤ := Int.floor (player.y / TILE_SIZE)
  let player := neighborhoodOffsets.foldl (fun pl d =>
    let checkX := gridX + d.2
    let checkY := gridY + d.1
    if 0 ≤ checkX ∧ checkX < (gridCols g : ℤ) ∧
        0 ≤ checkY ∧ checkY < (gridRows g : ℤ) then
      if playerSolidTile (getTile g checkY checkX) then
        let box := tileBox checkX checkY
        if checkCollision pl.rect box then resolveCollision pl box else pl
      else pl
    else pl) player
  let gridWidth := (gridCols g : ℚ) * TILE_SIZE
  let gridHeight := (gridRows g : ℚ) * TILE_SIZE
  let wallThickness := TILE_SIZE
  let leftWall : Rect := ⟨-wallThickness, 0, wallThickness, gridHeight⟩
  let player :=
    if checkCollision player.rect leftWall then resolveCollision player leftWall else player
  let rightWall : Rect := ⟨gridWidth, 0, wallThickness, gridHeight⟩
  let player :=
    if checkCollision player.rect rightWall then resolveCollision player rightWall else player
  let topWall : Rect := ⟨0, -wallThickness, gridWidth, wallThickness⟩
  let player :=
    if checkCollision player.rect topWall then resolveCollision player topWall else player
  let bottomWall : Rect := ⟨0, gridHeight, gridWidth, wallThickness⟩
  let player :=
    if checkCollision player.rect bottomWall then resolveCollision player bottomWall else player
  traps.foldl (fun pl trap =>
    let trapBox := tileBox trap.x trap.y
    if checkCollision pl.rect trapBox then resolveCollision pl trapBox else pl) player

/-- Tiles solid for monsters (Wall, Stone, Platform — not Lava). -/
def monsterSolidTile (t : ℕ) : Bool :=
  decide (t = TileType.Wall) || decide (t = TileType.Stone) ||
    decide (t = TileType.Platform)

/-- The `(dy, dx)` scan order of the monster wall check. -/
def monsterScanOffsets : List (ℤ × ℤ) :=
  [(0,-1),(0,0),(0,1),(1,-1),(1,0),(1,1)]

/-- One monster's patrol move, after the movement part of
`updateMonsters`: attempt `speed * direction`, revert and reverse on a
solid-tile or fire-trap-footprint hit or on reaching a patrol bound
(compared on grid columns). -/
def stepMonsterMove (g : Grid) (traps : List FireTrapState)
    (monster0 : MonsterState) : MonsterState :=
  let originalX := monster0.x
  let monster := { monster0 with x := monster0.x + monster0.speed * (monster0.direction : ℚ) }
  let monsterGridX : ℤ := Int.floor (monster.x / TILE_SIZE)
  let monsterGridY : ℤ := Int.floor (monster.y / TILE_SIZE)
  let hitTiles := monsterScanOffsets.any (fun d =>
    let checkX := monsterGridX + d.2
    let checkY := monsterGridY + d.1
    decide (0 ≤ checkX) && decide (checkX < (gridCols g : ℤ)) &&
      decide (0 ≤ checkY) && decide (checkY < (gridRows g : ℤ)) &&
      monsterSolidTile (getTile g checkY checkX) &&
      checkCollision monster.rect (tileBox checkX checkY))
  let hitWall := hitTiles ||
    traps.any (fun trap => checkCollision monster.rect (tileBox trap.x trap.y))
  let gridX : ℤ := Int.floor (monster.x / TILE_SIZE)
  if hitWall = true ∨ gridX ≤ monster.patrol.1 ∨ gridX ≥ monster.patrol.2 then
    { monster with direction := if monster.direction = 1 then -1 else 1, x := originalX }
  else
    monster

/-- Result of the monster stage. -/
structure MonstersResult where
  monsters : List MonsterState
  health : ℤ
  damageTimer : ℤ
  tookDamage : Bool
  deriving DecidableEq

/-- One monster's processing inside `updateMonsters`. -/
def updateMonstersStep (g : Grid) (traps : List FireTrapState) (player : PlayerState)
    (acc : MonstersResult) (m0 : MonsterState) : MonstersResult :=
  let m := stepMonsterMove g traps m0
  if checkCollision player.rect m.rect ∧ acc.damageTimer = 0 then
    { acc with monsters := acc.monsters ++ [m], health := acc.health - 1,
               damageTimer := 60, tookDamage := true }
  else
    { acc with monsters := acc.monsters ++ [m] }

/-- The monster stage, after `updateMonsters`: move every monster, then
apply one unit of contact damage gated by `damageTimer = 0` (which is
then reset to 60). -/
def updateMonsters (g : Grid) (traps : List FireTrapState) (player : PlayerState)
    (monsters : List MonsterState) (health damageTimer : ℤ) : MonstersResult :=
  monsters.foldl (updateMonstersStep g traps player) ⟨[], health, damageTimer, false⟩

/-- Result of the lava stage. -/
structure LavaResult where
  player : PlayerState
  health : ℤ
  damageTimer : ℤ
  tookDamage : Bool
  deriving DecidableEq

/-- The lava stage, after `handleLavaDamage`: while the shared cooldown
is positive just decrement it; otherwise one unit of damage when the
tile under the player's bottom-center is Lava and the player is
grounded, resetting the cooldown and starting a shake. -/
def handleLavaDamage (g : Grid) (player : PlayerState)
    (health damageTimer : ℤ) : LavaResult :=
  if damageTimer > 0 then
    ⟨player, health, damageTimer - 1, false⟩
  else
    let playerBottomY : ℤ := Int.floor ((player.y + player.height) / TILE_SIZE)
    let playerCenterX : ℤ := Int.floor ((player.x + player.width / 2) / TILE_SIZE)
    if 0 ≤ playerBottomY ∧ playerBottomY < (gridRows g : ℤ) ∧
        0 ≤ playerCenterX ∧ playerCenterX < (gridCols g : ℤ) then
      if getTile g playerBottomY playerCenterX = TileType.Lava ∧ player.onGround = true then
        ⟨{ player with shaking := true, shakeTimer := 30 }, health - 1, 60, true⟩
      else
        ⟨player, health, damageTimer, false⟩
    else
      ⟨player, health, damageTimer, false⟩

/-- Fire-block positions of an active trap: one block per 9 elapsed
active frames, up to `sprayDistance`, laid out in the emission
direction and clipped to grid bounds. -/
def trapFireBlocks (cols rows : ℕ) (trap : FireTrapState) : List GridPosition :=
  let framesSinceActivation := trap.sprayTime - trap.timer
  let blocksToShow := min (Int.fdiv framesSinceActivation 9 + 1) trap.sprayDistance
  ((List.range blocksToShow.toNat).map (fun k => (k : ℤ) + 1)).foldl (fun acc i =>
    let fireX := match trap.direction with
      | FireTrapDirection.left => trap.x - i
      | FireTrapDirection.right => trap.x + i
      | _ => trap.x
    let fireY := match trap.direction with
      | FireTrapDirection.up => trap.y - i
      | FireTrapDirection.down => trap.y + i
      | _ => trap.y
    if 0 ≤ fireX ∧ fireX < (cols : ℤ) ∧ 0 ≤ fireY ∧ fireY < (rows : ℤ) then
      acc ++ [⟨fireX, fireY⟩]
    else acc) []

/-- One trap's per-tick phase/timer/fire-block update (the part of
`updateFireTraps` that touches only the trap itself). -/
def stepTrap (cols rows : ℕ) (trap0 : FireTrapState) : FireTrapState :=
  let trap := { trap0 with timer := trap0.timer - 1 }
  let trap :=
    if trap.timer ≤ 0 then
      if trap.isActive then
        { trap with isActive := false, warning := false, fireBlocks := [],
                    timer := trap.restTime }
      else
        { trap with warning := false, isActive := true, fireBlocks := [],
                    timer := trap.sprayTime }
    else trap
  let trap :=
    if trap.isActive = false ∧ trap.timer ≤ 30 ∧ trap.timer > 0 then
      { trap with warning := true }
    else if trap.isActive then
      { trap with warning := false }
    else trap
  if trap.isActive then
    { trap with fireBlocks := trapFireBlocks cols rows trap }
  else trap

/-- Result of the fire-trap stage. -/
structure FireResult where
  traps : List FireTrapState
  player : PlayerState
  health : ℤ
  damageTimer : ℤ
  tookDamage : Bool
  deriving DecidableEq

/-- One trap's processing inside `updateFireTraps`. -/
def updateFireTrapsStep (g : Grid) (acc : FireResult) (trap0 : FireTrapState) : FireResult :=
  let trap := stepTrap (gridCols g) (gridRows g) trap0
  if trap.isActive = true ∧ acc.damageTimer ≤ 0 ∧
      trap.fireBlocks.any (fun fb => checkCollision acc.player.rect (tileBox fb.x fb.y)) then
    { acc with traps := acc.traps ++ [trap],
               player := { acc.player with shaking := true, shakeTimer := 30 },
               health := acc.health - 1, damageTimer := 60, tookDamage := true }
  else
    { acc with traps := acc.traps ++ [trap] }

/-- The fire-trap stage, after `updateFireTraps`: advance each trap,
then, when the shared cooldown is expired, one unit of damage on
overlap with any of its current fire blocks, resetting the cooldown
and starting a shake. -/
def updateFireTraps (g : Grid) (traps : List FireTrapState) (player0 : PlayerState)
    (health0 damageTimer0 : ℤ) : FireResult :=
  traps.foldl (updateFireTrapsStep g) ⟨[], player0, health0, damageTimer0, false⟩

/-- The door-collision stage, after `handleDoorCollisions`: closed
doors act as solid blocks. -/
def handleDoorCollisions (doors : List DoorState) (player0 : PlayerState) : PlayerState :=
  doors.foldl (fun pl door =>
    if door.isOpen then pl
    else
      let doorBox := tileBox door.x door.y
      if checkCollision pl.rect doorBox then resolveCollision pl doorBox else pl) player0

/-- Result of the collectible stage. -/
structure CollectResult where
  items : List CollectibleState
  player : PlayerState
  keys : ℤ
  ammo : ℤ
  bombCount : ℤ
  health : ℤ
  collected : Bool
  deriving DecidableEq

/-- One collectible's processing inside `collectItems`. -/
def collectItemStep (maxHealth : ℤ) (acc : CollectResult) (item : CollectibleState) :
    CollectResult :=
  if item.collected = false ∧ checkCollision acc.player.rect item.rect = true then
    let acc := { acc with items := acc.items ++ [{ item with collected := true }],
                          collected := true }
    match item.type with
    | CollectibleType.key => { acc with keys := acc.keys + 1 }
    | CollectibleType.weapon =>
        { acc with player := { acc.player with hasWeapon := true }, ammo := acc.ammo + 10 }
    | CollectibleType.bomb => { acc with bombCount := acc.bombCount + 3 }
    | CollectibleType.heart => { acc with health := min maxHealth (acc.health + 1) }
    | CollectibleType.coin => acc
  else
    { acc with items := acc.items ++ [item] }

/-- The collectible stage, after `collectItems`. -/
def collectItems (player : PlayerState) (items : List CollectibleState)
    (keys ammo bombCount health maxHealth : ℤ) : CollectResult :=
  items.foldl (collectItemStep maxHealth) ⟨[], player, keys, ammo, bombCount, health, false⟩

/-- Result of the bullet stage. -/
structure BulletsResult where
  bullets : List BulletState
  monsters : List MonsterState
  deriving DecidableEq

/-- The bullet stage, after `updateBullets` in gameState: each bullet
moves by its velocity, damages every live monster it overlaps (and is
consumed on any hit), and is dropped when out of bounds or inside a
Wall tile; monsters at zero health are removed at the end. -/
def updateBullets (bullets : List BulletState) (g : Grid)
    (monsters : List MonsterState) : BulletsResult :=
  let step : List BulletState × List MonsterState → BulletState →
      List BulletState × List MonsterState := fun acc bullet =>
    let nextBullet := { bullet with x := bullet.x + bullet.velocityX }
    let hitMonster := acc.2.any (fun m =>
      decide (m.health > 0) && checkCollision nextBullet.rect m.rect)
    let ms := acc.2.map (fun m =>
      if decide (m.health > 0) && checkCollision nextBullet.rect m.rect then
        { m with health := m.health - 1 }
      else m)
    if hitMonster then
      (acc.1, ms)
    else
      let gridX : ℤ := Int.floor (nextBullet.x / TILE_SIZE)
      let gridY : ℤ := Int.floor (nextBullet.y / TILE_SIZE)
      if gridY < 0 ∨ gridY ≥ (gridRows g : ℤ) ∨ gridX < 0 ∨ gridX ≥ (gridCols g : ℤ) ∨
          getTile g gridY gridX = TileType.Wall then
        (acc.1, ms)
      else
        (acc.1 ++ [nextBullet], ms)
  let folded := bullets.foldl step ([], monsters)
  ⟨folded.1, folded.2.filter (fun m => m.health > 0)⟩

/-- Replace tile `(y, x)` of the grid. -/
def setTile (g : Grid) (y x : ℕ) (t : ℕ) : Grid :=
  g.set y ((g.getD y []).set x t)

/-- Clear one cell of the blast: in-bounds Stone becomes Empty. -/
def blastCell (g : Grid) (x y : ℤ) : Grid :=
  if 0 ≤ y ∧ y < (gridRows g : ℤ) ∧ 0 ≤ x ∧ x < (gridCols g : ℤ) ∧
      getTile g y x = TileType.Stone then
    setTile g y.toNat x.toNat TileType.Empty
  else g

/-- The `(dy, dx)` blast scan order of `updatePlacedBombs`
(`dy` outer from -2 to 2, `dx` inner). -/
def blastOffsets : List (ℤ × ℤ) :=
  [(-2,-2),(-2,-1),(-2,0),(-2,1),(-2,2),
   (-1,-2),(-1,-1),(-1,0),(-1,1),(-1,2),
   (0,-2),(0,-1),(0,0),(0,1),(0,2),
   (1,-2),(1,-1),(1,0),(1,1),(1,2),
   (2,-2),(2,-1),(2,0),(2,1),(2,2)]

/-- Detonation of one bomb against the grid. -/
def detonate (g : Grid) (bx yb : ℤ) : Grid :=
  blastOffsets.foldl (fun g d => blastCell g (bx + d.2) (yb + d.1)) g

/-- Result of the bomb stage. -/
structure BombsResult where
  bombs : List PlacedBomb
  grid : Grid
  deriving DecidableEq

/-- The bomb stage, after `updatePlacedBombs` in gameState: decrement
each countdown; at zero the bomb detonates (clearing in-radius Stone
tiles) and is removed, otherwise it is kept. -/
def updatePlacedBombs (placedBombs : List PlacedBomb) (g : Grid) : BombsResult :=
  placedBombs.foldl (fun acc bomb =>
    let nextTimer := bomb.timer - 1
    if nextTimer ≤ 0 then
      { acc with grid := detonate acc.grid bomb.x bomb.y }
    else
      { acc with bombs := acc.bombs ++ [{ bomb with timer := nextTimer }] }) ⟨[], g⟩

/-- Modelled from the spec: the game loop destructures an `exploded`
flag from the bomb stage, but the current gameState module that
computes it is not part of the available sources (only an older
revision without the flag is).  Per the spec's event record, the
explosive-detonated flag reports whether some placed explosive's
countdown reached zero this tick. -/
def updatePlacedBombsExploded (placedBombs : List PlacedBomb) : Bool :=
  placedBombs.any (fun bomb => decide (bomb.timer - 1 ≤ 0))

/-- Goal-overlap test, after `handleGoal`. -/
def handleGoal (goalPos : Option GridPosition) (player : PlayerState) : Bool :=
  match goalPos with
  | none => false
  | some gp => checkCollision player.rect (tileBox gp.x gp.y)

/-- The all-false event record. -/
def noEvents : GameUpdateEvents :=
  ⟨false, false, false, false, false, false⟩

/-- Stages 1-4 of a tick: horizontal input, gravity, integration and
player-versus-terrain resolution. -/
def framePlayerMoved (state : GameState) (keys : KeyMap) : PlayerState :=
  let player := state.player
  let horizontalDirection : ℤ :=
    if keys.arrowLeft || keys.lowerA || keys.upperA then -1
    else if keys.arrowRight || keys.lowerD || keys.upperD then 1
    else 0
  let player := movePlayerHorizontal player horizontalDirection
  let player := applyGravity player
  let player := { player with x := player.x + player.velocityX,
                              y := player.y + player.velocityY }
  handleTileCollisions state.grid state.firetraps player

/-- Stage 5: the monster stage of a tick. -/
def frameMonsters (state : GameState) (keys : KeyMap) : MonstersResult :=
  updateMonsters state.grid state.firetraps (framePlayerMoved state keys) state.monsters
    state.health state.damageTimer

/-- Stage 6a: the lava stage of a tick. -/
def frameLava (state : GameState) (keys : KeyMap) : LavaResult :=
  handleLavaDamage state.grid (framePlayerMoved state keys)
    (frameMonsters state keys).health (frameMonsters state keys).damageTimer

/-- Stage 6b: the fire-trap stage of a tick. -/
def frameFire (state : GameState) (keys : KeyMap) : FireResult :=
  updateFireTraps state.grid state.firetraps (frameLava state keys).player
    (frameLava state keys).health (frameLava state keys).damageTimer

/-- Whether any damage source fired this tick. -/
def frameTookDamage (state : GameState) (keys : KeyMap) : Bool :=
  (frameMonsters state keys).tookDamage || (frameLava state keys).tookDamage ||
    (frameFire state keys).tookDamage

/-- Stages 8-9: door collisions then collectible pickups. -/
def frameCollect (state : GameState) (keys : KeyMap) : CollectResult :=
  collectItems (handleDoorCollisions state.doors (frameFire state keys).player)
    state.collectibles state.keys state.ammo state.bombCount
    (frameFire state keys).health state.maxHealth

/-- Stage 10: the bullet stage of a tick. -/
def frameBullets (state : GameState) (keys : KeyMap) : BulletsResult :=
  updateBullets state.bullets state.grid (frameMonsters state keys).monsters

/-- Stage 11: the bomb stage of a tick. -/
def frameBombs (state : GameState) : BombsResult :=
  updatePlacedBombs state.placedBombs state.grid

/-- Stage 13: shake-timer decay on the stage-9 player. -/
def frameFinalPlayer (state : GameState) (keys : KeyMap) : PlayerState :=
  let player := (frameCollect state keys).player
  if player.shakeTimer > 0 then
    if player.shakeTimer - 1 ≤ 0 then
      { player with shakeTimer := 0, shaking := false }
    else
      { player with shakeTimer := player.shakeTimer - 1 }
  else player

/-- One tick of the frame pipeline, after `updateGameFrame`: input,
gravity, integration, terrain resolution, monster/lava/fire damage,
death early-exit, door collisions, pickups, bullets, bombs, goal
check, animation counter and shake-timer decay.  The sequential
locals of the source are rendered as the `frame*` stage functions
above. -/
def updateGameFrame (state : GameState) (keys : KeyMap) : GameState × GameUpdateEvents :=
  if state.grid = [] then
    (state, noEvents)
  else if frameTookDamage state keys = true ∧ (frameFire state keys).health ≤ 0 then
    ({ state with player := (frameFire state keys).player,
                  monsters := (frameMonsters state keys).monsters,
                  firetraps := (frameFire state keys).traps,
                  health := (frameFire state keys).health,
                  damageTimer := (frameFire state keys).damageTimer,
                  deaths := state.deaths + 1 },
     { noEvents with playerDied := true, tookDamage := true })
  else
    ({ state with player := frameFinalPlayer state keys,
                  monsters := (frameBullets state keys).monsters,
                  collectibles := (frameCollect state keys).items,
                  bullets := (frameBullets state keys).bullets,
                  placedBombs := (frameBombs state).bombs,
                  grid := (frameBombs state).grid,
                  firetraps := (frameFire state keys).traps,
                  keys := (frameCollect state keys).keys,
                  ammo := (frameCollect state keys).ammo,
                  bombCount := (frameCollect state keys).bombCount,
                  health := (frameCollect state keys).health,
                  damageTimer := (frameFire state keys).damageTimer,
                  animationFrame := (state.animationFrame + 1) % 1000 },
     { levelComplete := handleGoal state.goalPos (frameCollect state keys).player,
       playerDied := false, doorOpened := false,
       tookDamage := frameTookDamage state keys,
       itemCollected := (frameCollect state keys).collected,
       bombExploded := updatePlacedBombsExploded state.placedBombs })

/-- The proximity test of `tryOpenDoor`: the door-center to
player-center distance is at most 1.5 tiles on each axis
independently. -/
def doorInRange (player : PlayerState) (door : DoorState) : Prop :=
  |player.x + player.width / 2 - ((door.x : ℚ) * TILE_SIZE + TILE_SIZE / 2)| ≤ TILE_SIZE * 1.5 ∧
    |player.y + player.height / 2 - ((door.y : ℚ) * TILE_SIZE + TILE_SIZE / 2)| ≤ TILE_SIZE * 1.5

instance (player : PlayerState) (door : DoorState) : Decidable (doorInRange player door) := by
  unfold doorInRange
  infer_instance

/-- One door's processing inside `tryOpenDoor`: a closed door is
opened (consuming a key) when a key is held and the door is in
range. -/
def tryOpenDoorStep (player : PlayerState) (acc : List DoorState × ℤ × Bool)
    (door : DoorState) : List DoorState × ℤ × Bool :=
  if door.isOpen = false ∧ acc.2.1 > 0 then
    if doorInRange player door then
      (acc.1 ++ [{ door with isOpen := true }], acc.2.1 - 1, true)
    else
      (acc.1 ++ [door], acc.2.1, acc.2.2)
  else
    (acc.1 ++ [door], acc.2.1, acc.2.2)

/-- The explicit door-opening action, after `tryOpenDoor`: scan the
door array in order; every closed door within 1.5 tiles of the player
on both axes (center to center) is opened while a key is held, one key
per door. -/
def tryOpenDoor (state : GameState) : GameState × Bool :=
  let res := state.doors.foldl (tryOpenDoorStep state.player) ([], state.keys, false)
  ({ state with doors := res.1, keys := res.2.1 }, res.2.2)

/-! ### Collision resolver lemmas -/

/-- `checkCollision` as a proposition. -/
lemma checkCollision_iff (a b : Rect) :
    checkCollision a b = true ↔
      a.x < b.x + b.width ∧ a.x + a.width > b.x ∧
        a.y < b.y + b.height ∧ a.y + a.height > b.y := by
  simp [checkCollision, and_assoc]

/-- Failing `checkCollision` as a proposition. -/
lemma checkCollision_eq_false_iff (a b : Rect) :
    checkCollision a b = false ↔
      ¬(a.x < b.x + b.width ∧ a.x + a.width > b.x ∧
          a.y < b.y + b.height ∧ a.y + a.height > b.y) := by
  rw [← checkCollision_iff]
  cases h : checkCollision a b <;> simp

/-- The least of the four overlap depths used by `resolveCollision`. -/
def overlapsMin (p : PlayerState) (b : Rect) : ℚ :=
  min (min (min (p.x + p.width - b.x) (b.x + b.width - p.x)) (p.y + p.height - b.y))
    (b.y + b.height - p.y)

lemma overlapsMin_le (p : PlayerState) (b : Rect) :
    overlapsMin p b ≤ p.x + p.width - b.x ∧ overlapsMin p b ≤ b.x + b.width - p.x ∧
      overlapsMin p b ≤ p.y + p.height - b.y ∧ overlapsMin p b ≤ b.y + b.height - p.y := by
  refine ⟨?_, ?_, ?_, ?_⟩ <;> unfold overlapsMin
  · exact le_trans (min_le_left _ _) (le_trans (min_le_left _ _) (min_le_left _ _))
  · exact le_trans (min_le_left _ _) (le_trans (min_le_left _ _) (min_le_right _ _))
  · exact le_trans (min_le_left _ _) (min_le_right _ _)
  · exact min_le_right _ _

lemma overlapsMin_mem (p : PlayerState) (b : Rect) :
    overlapsMin p b = p.x + p.width - b.x ∨ overlapsMin p b = b.x + b.width - p.x ∨
      overlapsMin p b = p.y + p.height - b.y ∨ overlapsMin p b = b.y + b.height - p.y := by
  unfold overlapsMin
  rcases min_choice (min (min (p.x + p.width - b.x) (b.x + b.width - p.x))
      (p.y + p.height - b.y)) (b.y + b.height - p.y) with h | h
  · rw [h]
    rcases min_choice (min (p.x + p.width - b.x) (b.x + b.width - p.x))
        (p.y + p.height - b.y) with h2 | h2
    · rw [h2]
      rcases min_choice (p.x + p.width - b.x) (b.x + b.width - p.x) with h3 | h3
      · exact Or.inl h3
      · exact Or.inr (Or.inl h3)
    · exact Or.inr (Or.inr (Or.inl h2))
  · exact Or.inr (Or.inr (Or.inr h))

lemma resolve_top (p : PlayerState) (b : Rect)
    (hc : overlapsMin p b = p.y + p.height - b.y ∧ p.velocityY > 0) :
    resolveCollision p b = { p with y := b.y - p.height, velocityY := 0, onGround := true } := by
  simp only [overlapsMin] at hc
  simp only [resolveCollision]
  rw [if_pos hc]

lemma resolve_bottom (p : PlayerState) (b : Rect)
    (hc1 : ¬(overlapsMin p b = p.y + p.height - b.y ∧ p.velocityY > 0))
    (hc2 : overlapsMin p b = b.y + b.height - p.y ∧ p.velocityY < 0) :
    resolveCollision p b = { p with y := b.y + b.height, velocityY := 0 } := by
  simp only [overlapsMin] at hc1 hc2
  simp only [resolveCollision]
  rw [if_neg hc1, if_pos hc2]

lemma resolve_left (p : PlayerState) (b : Rect)
    (hc1 : ¬(overlapsMin p b = p.y + p.height - b.y ∧ p.velocityY > 0))
    (hc2 : ¬(overlapsMin p b = b.y + b.height - p.y ∧ p.velocityY < 0))
    (hc3 : overlapsMin p b = p.x + p.width - b.x) :
    resolveCollision p b = { p with x := b.x - p.width, velocityX := 0 } := by
  simp only [overlapsMin] at hc1 hc2 hc3
  simp only [resolveCollision]
  rw [if_neg hc1, if_neg hc2, if_pos hc3]

lemma resolve_right (p : PlayerState) (b : Rect)
    (hc1 : ¬(overlapsMin p b = p.y + p.height - b.y ∧ p.velocityY > 0))
    (hc2 : ¬(overlapsMin p b = b.y + b.height - p.y ∧ p.velocityY < 0))
    (hc3 : ¬overlapsMin p b = p.x + p.width - b.x)
    (hc4 : overlapsMin p b = b.x + b.width - p.x) :
    resolveCollision p b = { p with x := b.x + b.width, velocityX := 0 } := by
  simp only [overlapsMin] at hc1 hc2 hc3 hc4
  simp only [resolveCollision]
  rw [if_neg hc1, if_neg hc2, if_neg hc3, if_pos hc4]

lemma resolve_none (p : PlayerState) (b : Rect)
    (hc1 : ¬(overlapsMin p b = p.y + p.height - b.y ∧ p.velocityY > 0))
    (hc2 : ¬(overlapsMin p b = b.y + b.height - p.y ∧ p.velocityY < 0))
    (hc3 : ¬overlapsMin p b = p.x + p.width - b.x)
    (hc4 : ¬overlapsMin p b = b.x + b.width - p.x) :
    resolveCollision p b = p := by
  simp only [overlapsMin] at hc1 hc2 hc3 hc4
  simp only [resolveCollision]
  rw [if_neg hc1, if_neg hc2, if_neg hc3, if_neg hc4]

lemma resolve_top_idem (p : PlayerState) (b : Rect)
    (hoL : 0 < p.x + p.width - b.x) (hoR : 0 < b.x + b.width - p.x)
    (hHH : 0 < b.height + p.height) :
    resolveCollision { p with y := b.y - p.height, velocityY := 0, onGround := true } b =
      { p with y := b.y - p.height, velocityY := 0, onGround := true } := by
  have hm : overlapsMin { p with y := b.y - p.height, velocityY := 0, onGround := true } b = 0 := by
    unfold overlapsMin
    dsimp only
    have e3 : b.y - p.height + p.height - b.y = (0:ℚ) := by ring
    have e4 : b.y + b.height - (b.y - p.height) = b.height + p.height := by ring
    rw [e3, e4, min_eq_right (le_of_lt (lt_min hoL hoR)), min_eq_left (le_of_lt hHH)]
  apply resolve_none
  · rintro ⟨-, hv⟩
    simp at hv
  · rintro ⟨-, hv⟩
    simp at hv
  · intro he
    rw [hm] at he
    dsimp only at he
    exact (ne_of_lt hoL) he
  · intro he
    rw [hm] at he
    dsimp only at he
    exact (ne_of_lt hoR) he

lemma resolve_bottom_idem (p : PlayerState) (b : Rect)
    (hoL : 0 < p.x + p.width - b.x) (hoR : 0 < b.x + b.width - p.x)
    (hHH : 0 < b.height + p.height) :
    resolveCollision { p with y := b.y + b.height, velocityY := 0 } b =
      { p with y := b.y + b.height, velocityY := 0 } := by
  have hm : overlapsMin { p with y := b.y + b.height, velocityY := 0 } b = 0 := by
    unfold overlapsMin
    dsimp only
    have e3 : b.y + b.height + p.height - b.y = b.height + p.height := by ring
    have e4 : b.y + b.height - (b.y + b.height) = (0:ℚ) := by ring
    rw [e3, e4, min_eq_right]
    exact le_of_lt (lt_min (lt_min hoL hoR) hHH)
  apply resolve_none
  · rintro ⟨he, -⟩
    rw [hm] at he
    dsimp only at he
    have : b.y + b.height + p.height - b.y = b.height + p.height := by ring
    rw [this] at he
    exact (ne_of_lt hHH) he
  · rintro ⟨-, hv⟩
    simp at hv
  · intro he
    rw [hm] at he
    dsimp only at he
    exact (ne_of_lt hoL) he
  · intro he
    rw [hm] at he
    dsimp only at he
    exact (ne_of_lt hoR) he

lemma resolve_left_idem (p : PlayerState) (b : Rect)
    (hoT : 0 < p.y + p.height - b.y) (hoB : 0 < b.y + b.height - p.y)
    (hWW : 0 < b.width + p.width) :
    resolveCollision { p with x := b.x - p.width, velocityX := 0 } b =
      { p with x := b.x - p.width, velocityX := 0 } := by
  have hm : overlapsMin { p with x := b.x - p.width, velocityX := 0 } b = 0 := by
    unfold overlapsMin
    dsimp only
    have e1 : b.x - p.width + p.width - b.x = (0:ℚ) := by ring
    have e2 : b.x + b.width - (b.x - p.width) = b.width + p.width := by ring
    rw [e1, e2, min_eq_left (le_of_lt hWW), min_eq_left (le_of_lt hoT),
      min_eq_left (le_of_lt hoB)]
  have h3 : overlapsMin { p with x := b.x - p.width, velocityX := 0 } b =
      ({ p with x := b.x - p.width, velocityX := 0 } : PlayerState).x +
        ({ p with x := b.x - p.width, velocityX := 0 } : PlayerState).width - b.x := by
    rw [hm]
    dsimp only
    ring
  rw [resolve_left _ _ ?_ ?_ h3]
  · rintro ⟨he, -⟩
    rw [hm] at he
    dsimp only at he
    exact (ne_of_lt hoT) he
  · rintro ⟨he, -⟩
    rw [hm] at he
    dsimp only at he
    exact (ne_of_lt hoB) he

lemma resolve_right_idem (p : PlayerState) (b : Rect)
    (hoT : 0 < p.y + p.height - b.y) (hoB : 0 < b.y + b.height - p.y)
    (hWW : 0 < b.width + p.width) :
    resolveCollision { p with x := b.x + b.width, velocityX := 0 } b =
      { p with x := b.x + b.width, velocityX := 0 } := by
  have hm : overlapsMin { p with x := b.x + b.width, velocityX := 0 } b = 0 := by
    unfold overlapsMin
    dsimp only
    have e1 : b.x + b.width + p.width - b.x = b.width + p.width := by ring
    have e2 : b.x + b.width - (b.x + b.width) = (0:ℚ) := by ring
    rw [e1, e2, min_eq_right (le_of_lt hWW), min_eq_left (le_of_lt hoT),
      min_eq_left (le_of_lt hoB)]
  have h4 : overlapsMin { p with x := b.x + b.width, velocityX := 0 } b =
      b.x + b.width - ({ p with x := b.x + b.width, velocityX := 0 } : PlayerState).x := by
    rw [hm]
    dsimp only
    ring
  have h3 : ¬overlapsMin { p with x := b.x + b.width, velocityX := 0 } b =
      ({ p with x := b.x + b.width, velocityX := 0 } : PlayerState).x +
        ({ p with x := b.x + b.width, velocityX := 0 } : PlayerState).width - b.x := by
    intro he
    rw [hm] at he
    dsimp only at he
    have : b.x + b.width + p.width - b.x = b.width + p.width := by ring
    rw [this] at he
    exact (ne_of_lt hWW) he
  rw [resolve_right _ _ ?_ ?_ h3 h4]
  · rintro ⟨he, -⟩
    rw [hm] at he
    dsimp only at he
    exact (ne_of_lt hoT) he
  · rintro ⟨he, -⟩
    rw [hm] at he
    dsimp only at he
    exact (ne_of_lt hoB) he

/-- A mover overlapping a box from above while not moving downward:
no branch of `resolveCollision` fires. -/
def C6player : PlayerState := ⟨0, -25, 30, 30, 0, 0, false, false, false, false, 0⟩

/-- A 40x40 obstacle at the origin. -/
def C6box : Rect := ⟨0, 0, 40, 40⟩

/-- C6 counterexample: the claim says one application of the collision
resolution always clears the overlap, but for a mover overlapping the
obstacle from above with non-positive vertical velocity the resolver
takes no branch: the mover is returned unchanged and the overlap
persists. -/
theorem C6_counterexample :
    checkCollision C6player.rect C6box = true ∧
      resolveCollision C6player C6box = C6player ∧
      checkCollision (resolveCollision C6player C6box).rect C6box = true := by
  have h2 : resolveCollision C6player C6box = C6player := by
    apply resolve_none <;> norm_num [overlapsMin, C6player, C6box, min_def]
  have h1 : checkCollision C6player.rect C6box = true := by
    norm_num [C6player, C6box, checkCollision, PlayerState.rect]
  exact ⟨h1, h2, by rw [h2]; exact h1⟩

/-- C6 (amended): for an overlapping mover and obstacle, whenever one
application of `resolveCollision` moves the mover at all, the overlap
is cleared; and a second application never changes the mover's
position or velocity (it can be a strict no-op that leaves the
overlap in place when the least overlap is vertical and the vertical
velocity sign does not match). -/
theorem C6_resolve_amended (p : PlayerState) (b : Rect)
    (h : checkCollision p.rect b = true) :
    (((resolveCollision p b).x ≠ p.x ∨ (resolveCollision p b).y ≠ p.y) →
        checkCollision (resolveCollision p b).rect b = false) ∧
      (resolveCollision (resolveCollision p b) b).x = (resolveCollision p b).x ∧
      (resolveCollision (resolveCollision p b) b).y = (resolveCollision p b).y ∧
      (resolveCollision (resolveCollision p b) b).velocityX = (resolveCollision p b).velocityX ∧
      (resolveCollision (resolveCollision p b) b).velocityY = (resolveCollision p b).velocityY := by
  rw [checkCollision_iff] at h
  simp only [PlayerState.rect] at h
  obtain ⟨hxlt, hxgt, hylt, hygt⟩ := h
  have hoL : 0 < p.x + p.width - b.x := by linarith
  have hoR : 0 < b.x + b.width - p.x := by linarith
  have hoT : 0 < p.y + p.height - b.y := by linarith
  have hoB : 0 < b.y + b.height - p.y := by linarith
  have hHH : 0 < b.height + p.height := by linarith
  have hWW : 0 < b.width + p.width := by linarith
  by_cases hc1 : overlapsMin p b = p.y + p.height - b.y ∧ p.velocityY > 0
  · rw [resolve_top p b hc1, resolve_top_idem p b hoL hoR hHH]
    refine ⟨fun _ => ?_, rfl, rfl, rfl, rfl⟩
    rw [checkCollision_eq_false_iff]
    simp only [PlayerState.rect]
    rintro ⟨-, -, -, h4⟩
    linarith
  · by_cases hc2 : overlapsMin p b = b.y + b.height - p.y ∧ p.velocityY < 0
    · rw [resolve_bottom p b hc1 hc2, resolve_bottom_idem p b hoL hoR hHH]
      refine ⟨fun _ => ?_, rfl, rfl, rfl, rfl⟩
      rw [checkCollision_eq_false_iff]
      simp only [PlayerState.rect]
      rintro ⟨-, -, h3, -⟩
      linarith
    · by_cases hc3 : overlapsMin p b = p.x + p.width - b.x
      · rw [resolve_left p b hc1 hc2 hc3, resolve_left_idem p b hoT hoB hWW]
        refine ⟨fun _ => ?_, rfl, rfl, rfl, rfl⟩
        rw [checkCollision_eq_false_iff]
        simp only [PlayerState.rect]
        rintro ⟨-, h2, -, -⟩
        linarith
      · by_cases hc4 : overlapsMin p b = b.x + b.width - p.x
        · rw [resolve_right p b hc1 hc2 hc3 hc4, resolve_right_idem p b hoT hoB hWW]
          refine ⟨fun _ => ?_, rfl, rfl, rfl, rfl⟩
          rw [checkCollision_eq_false_iff]
          simp only [PlayerState.rect]
          rintro ⟨h1, -, -, -⟩
          linarith
        · rw [resolve_none p b hc1 hc2 hc3 hc4, resolve_none p b hc1 hc2 hc3 hc4]
          refine ⟨fun hx => ?_, rfl, rfl, rfl, rfl⟩
          rcases hx with hx | hx <;> exact absurd rfl hx

/-- A mover overlapping the obstacle from above while falling. -/
def C6wplayer : PlayerState := ⟨0, -25, 30, 30, 0, 1, false, false, false, false, 0⟩

/-- C6 witness: the amended theorem applied to a concrete falling
mover overlapping the obstacle. -/
theorem C6_witness :
    checkCollision C6wplayer.rect C6box = true ∧
      ((((resolveCollision C6wplayer C6box).x ≠ C6wplayer.x ∨
            (resolveCollision C6wplayer C6box).y ≠ C6wplayer.y) →
          checkCollision (resolveCollision C6wplayer C6box).rect C6box = false) ∧
        (resolveCollision (resolveCollision C6wplayer C6box) C6box).x =
          (resolveCollision C6wplayer C6box).x ∧
        (resolveCollision (resolveCollision C6wplayer C6box) C6box).y =
          (resolveCollision C6wplayer C6box).y ∧
        (resolveCollision (resolveCollision C6wplayer C6box) C6box).velocityX =
          (resolveCollision C6wplayer C6box).velocityX ∧
        (resolveCollision (resolveCollision C6wplayer C6box) C6box).velocityY =
          (resolveCollision C6wplayer C6box).velocityY) :=
  have h : checkCollision C6wplayer.rect C6box = true := by
    norm_num [C6wplayer, C6box, checkCollision, PlayerState.rect]
  ⟨h, C6_resolve_amended C6wplayer C6box h⟩

/-! ### Door-opening lemmas -/

/-- Recursive specification of the `tryOpenDoor` scan. -/
def openScan (p : PlayerState) (doors : List DoorState) (k : ℤ) :
    List DoorState × ℤ × Bool :=
  match doors with
  | [] => ([], k, false)
  | d :: rest =>
    if d.isOpen = false ∧ k > 0 ∧ doorInRange p d then
      let r := openScan p rest (k - 1)
      ({ d with isOpen := true } :: r.1, r.2.1, true)
    else
      let r := openScan p rest k
      (d :: r.1, r.2.1, r.2.2)

lemma foldl_tryOpenDoorStep_eq (p : PlayerState) (doors : List DoorState) :
    ∀ (ds0 : List DoorState) (k0 : ℤ) (o0 : Bool),
      doors.foldl (tryOpenDoorStep p) (ds0, k0, o0) =
        (ds0 ++ (openScan p doors k0).1, (openScan p doors k0).2.1,
          o0 || (openScan p doors k0).2.2) := by
  induction doors with
  | nil =>
    intro ds0 k0 o0
    simp [openScan]
  | cons d rest ih =>
    intro ds0 k0 o0
    by_cases h1 : d.isOpen = false ∧ k0 > 0
    · by_cases h2 : doorInRange p d
      · have hs : tryOpenDoorStep p (ds0, k0, o0) d =
            (ds0 ++ [{ d with isOpen := true }], k0 - 1, true) := by
          unfold tryOpenDoorStep
          rw [if_pos h1, if_pos h2]
        have hc : d.isOpen = false ∧ k0 > 0 ∧ doorInRange p d := ⟨h1.1, h1.2, h2⟩
        rw [List.foldl_cons, hs, ih]
        simp [openScan, if_pos hc]
      · have hs : tryOpenDoorStep p (ds0, k0, o0) d = (ds0 ++ [d], k0, o0) := by
          unfold tryOpenDoorStep
          rw [if_pos h1, if_neg h2]
        have hc : ¬(d.isOpen = false ∧ k0 > 0 ∧ doorInRange p d) := by
          rintro ⟨-, -, hr⟩
          exact h2 hr
        rw [List.foldl_cons, hs, ih]
        simp [openScan, if_neg hc]
    · have hs : tryOpenDoorStep p (ds0, k0, o0) d = (ds0 ++ [d], k0, o0) := by
        unfold tryOpenDoorStep
        rw [if_neg h1]
      have hc : ¬(d.isOpen = false ∧ k0 > 0 ∧ doorInRange p d) := by
        rintro ⟨ha, hb, -⟩
        exact h1 ⟨ha, hb⟩
      rw [List.foldl_cons, hs, ih]
      simp [openScan, if_neg hc]

lemma openScan_mono (p : PlayerState) :
    ∀ (doors : List DoorState) (k : ℤ),
      List.Forall₂ (fun d d' => (d.isOpen = true → d'.isOpen = true) ∧
          (d'.isOpen = true → d.isOpen = true ∨ (d.isOpen = false ∧ doorInRange p d)))
        doors (openScan p doors k).1 := by
  intro doors
  induction doors with
  | nil =>
    intro k
    simp [openScan]
  | cons d rest ih =>
    intro k
    by_cases hc : d.isOpen = false ∧ k > 0 ∧ doorInRange p d
    · simp only [openScan, if_pos hc]
      exact List.Forall₂.cons ⟨fun _ => rfl, fun _ => Or.inr ⟨hc.1, hc.2.2⟩⟩ (ih (k - 1))
    · simp only [openScan, if_neg hc]
      exact List.Forall₂.cons ⟨fun h => h, fun h => Or.inl h⟩ (ih k)

/-- Marks a door pair (before, after) that went from closed to open. -/
def newlyOpened (dd : DoorState × DoorState) : Bool :=
  decide (dd.1.isOpen = false ∧ dd.2.isOpen = true)

lemma openScan_count (p : PlayerState) :
    ∀ (doors : List DoorState) (k : ℤ),
      k - (openScan p doors k).2.1 =
        ((doors.zip (openScan p doors k).1).countP newlyOpened : ℤ) := by
  intro doors
  induction doors with
  | nil =>
    intro k
    simp [openScan]
  | cons d rest ih =>
    intro k
    by_cases hc : d.isOpen = false ∧ k > 0 ∧ doorInRange p d
    · have hih := ih (k - 1)
      simp only [openScan, if_pos hc]
      rw [List.zip_cons_cons, List.countP_cons]
      have hhead : newlyOpened (d, { d with isOpen := true }) = true := by
        simp [newlyOpened, hc.1]
      rw [hhead, if_pos rfl]
      push_cast
      push_cast at hih
      omega
    · have hih := ih k
      simp only [openScan, if_neg hc]
      rw [List.zip_cons_cons, List.countP_cons]
      have hhead : newlyOpened (d, d) = false := by
        cases hd : d.isOpen <;> simp [newlyOpened, hd]
      rw [hhead]
      simpa using hih

lemma openScan_keys_le (p : PlayerState) :
    ∀ (doors : List DoorState) (k : ℤ), (openScan p doors k).2.1 ≤ k := by
  intro doors
  induction doors with
  | nil =>
    intro k
    simp [openScan]
  | cons d rest ih =>
    intro k
    by_cases hc : d.isOpen = false ∧ k > 0 ∧ doorInRange p d
    · simp only [openScan, if_pos hc]
      have := ih (k - 1)
      omega
    · simp only [openScan, if_neg hc]
      exact ih k

lemma openScan_no_eligible (p : PlayerState) :
    ∀ (doors : List DoorState) (k : ℤ),
      (∀ d ∈ doors, ¬(d.isOpen = false ∧ doorInRange p d)) →
      openScan p doors k = (doors, k, false) := by
  intro doors
  induction doors with
  | nil =>
    intro k _
    simp [openScan]
  | cons d rest ih =>
    intro k hno
    have hc : ¬(d.isOpen = false ∧ k > 0 ∧ doorInRange p d) := by
      rintro ⟨ha, -, hr⟩
      exact hno d (List.mem_cons_self d rest) ⟨ha, hr⟩
    simp only [openScan, if_neg hc]
    rw [ih k (fun d' hd' => hno d' (List.mem_cons_of_mem d hd'))]

lemma openScan_progress (p : PlayerState) :
    ∀ (doors : List DoorState) (k : ℤ), 0 < k →
      (∃ d ∈ doors, d.isOpen = false ∧ doorInRange p d) →
      (openScan p doors k).2.2 = true ∧ (openScan p doors k).2.1 < k := by
  intro doors
  induction doors with
  | nil =>
    intro k _ hex
    simp at hex
  | cons d rest ih =>
    intro k hk hex
    by_cases hc : d.isOpen = false ∧ k > 0 ∧ doorInRange p d
    · simp only [openScan, if_pos hc]
      have hle := openScan_keys_le p rest (k - 1)
      exact ⟨by trivial, by omega⟩
    · simp only [openScan, if_neg hc]
      rcases hex with ⟨d', hmem, helig⟩
      rcases List.mem_cons.mp hmem with rfl | hmem'
      · exact absurd ⟨helig.1, hk, helig.2⟩ hc
      · exact ih k hk ⟨d', hmem', helig⟩

/-- A player standing between two adjacent closed doors, in range of
both, holding two keys. -/
def C1player : PlayerState := ⟨25, 5, 30, 30, 0, 0, false, false, false, false, 0⟩

/-- Game state for the C1 counterexample. -/
def C1state : GameState :=
  { keys := 2, ammo := 0, bombCount := 0, deaths := 0, health := 5, maxHealth := 5,
    damageTimer := 0, grid := [[0]], monsters := [], collectibles := [],
    doors := [⟨0, 0, false⟩, ⟨1, 0, false⟩], bullets := [], placedBombs := [],
    firetraps := [], goalPos := none, player := C1player, animationFrame := 0 }

/-- C1 counterexample: the claim says the open-door action opens only
the nearest in-range closed door and consumes exactly one key, but
with two keys and two closed in-range doors the source opens both
doors and consumes both keys in a single invocation. -/
theorem C1_counterexample :
    C1state.keys = 2 ∧
      ((tryOpenDoor C1state).1.doors.map DoorState.isOpen) = [true, true] ∧
      (tryOpenDoor C1state).1.keys = 0 := by
  refine ⟨rfl, ?_, ?_⟩ <;>
    norm_num [tryOpenDoor, tryOpenDoorStep, doorInRange, C1state, C1player, TILE_SIZE]

/-- C1 (amended): the open-door action scans the door array in order
and opens every closed door within the 1.5-tile per-axis threshold
while a key remains, consuming one key per opened door (not only the
nearest, and possibly more than one key per invocation).  Keys never
increase; every newly opened door was closed and in range; with no
closed in-range door the state is unchanged and no key is spent; and
with a key held and some closed in-range door, at least one door is
opened and a key is consumed. -/
theorem C1_tryOpenDoor_amended (s : GameState) :
    (tryOpenDoor s).1.keys ≤ s.keys ∧
      s.keys - (tryOpenDoor s).1.keys =
        ((s.doors.zip (tryOpenDoor s).1.doors).countP newlyOpened : ℤ) ∧
      List.Forall₂ (fun d d' => (d.isOpen = true → d'.isOpen = true) ∧
          (d'.isOpen = true → d.isOpen = true ∨ (d.isOpen = false ∧ doorInRange s.player d)))
        s.doors (tryOpenDoor s).1.doors ∧
      ((∀ d ∈ s.doors, ¬(d.isOpen = false ∧ doorInRange s.player d)) →
        (tryOpenDoor s).1 = s ∧ (tryOpenDoor s).2 = false) ∧
      (0 < s.keys → (∃ d ∈ s.doors, d.isOpen = false ∧ doorInRange s.player d) →
        (tryOpenDoor s).2 = true ∧ (tryOpenDoor s).1.keys < s.keys) := by
  have hfold := foldl_tryOpenDoorStep_eq s.player s.doors [] s.keys false
  have h1 : (tryOpenDoor s).1.doors = (openScan s.player s.doors s.keys).1 := by
    simp [tryOpenDoor, hfold]
  have h2 : (tryOpenDoor s).1.keys = (openScan s.player s.doors s.keys).2.1 := by
    simp [tryOpenDoor, hfold]
  have h3 : (tryOpenDoor s).2 = (openScan s.player s.doors s.keys).2.2 := by
    simp [tryOpenDoor, hfold]
  refine ⟨?_, ?_, ?_, ?_, ?_⟩
  · rw [h2]
    exact openScan_keys_le s.player s.doors s.keys
  · rw [h2, h1]
    exact openScan_count s.player s.doors s.keys
  · rw [h1]
    exact openScan_mono s.player s.doors s.keys
  · intro hno
    have hrun := openScan_no_eligible s.player s.doors s.keys hno
    constructor
    · have hres : (tryOpenDoor s).1 =
          { s with doors := (openScan s.player s.doors s.keys).1,
                   keys := (openScan s.player s.doors s.keys).2.1 } := by
        simp [tryOpenDoor, hfold]
      rw [hres, hrun]
    · rw [h3, hrun]
  · intro hk hex
    have hp := openScan_progress s.player s.doors s.keys hk hex
    exact ⟨by rw [h3]; exact hp.1, by rw [h2]; exact hp.2⟩

/-! ### Bomb detonation lemmas -/

/-- Tile lookup with natural-number indices. -/
def tileAtNat (g : Grid) (r c : ℕ) : ℕ :=
  (g.getD r []).getD c TileType.Empty

lemma getD_set' {α : Type} (l : List α) (i : ℕ) (v : α) (d : α) :
    ∀ j : ℕ, (l.set i v).getD j d = if i = j ∧ j < l.length then v else l.getD j d := by
  induction l generalizing i with
  | nil =>
    intro j
    simp
  | cons a t ih =>
    intro j
    cases i with
    | zero =>
      cases j with
      | zero => simp
      | succ j' => simp
    | succ i' =>
      cases j with
      | zero => simp
      | succ j' =>
        simp only [List.set_cons_succ, List.getD_cons_succ, ih i' j', List.length_cons]
        by_cases h : i' = j' ∧ j' < t.length
        · rw [if_pos h, if_pos ⟨by omega, by omega⟩]
        · rw [if_neg h, if_neg (by omega)]

lemma tileAtNat_setTile (g : Grid) (y x t : ℕ) (r c : ℕ) :
    tileAtNat (setTile g y x t) r c =
      if y = r ∧ x = c ∧ y < g.length ∧ c < (g.getD y []).length then t
      else tileAtNat g r c := by
  unfold tileAtNat setTile
  rw [getD_set']
  by_cases h1 : y = r ∧ r < g.length
  · rw [if_pos h1]
    obtain ⟨rfl, hr⟩ := h1
    rw [getD_set']
    by_cases h2 : x = c ∧ c < (g.getD y []).length
    · rw [if_pos h2, if_pos ⟨rfl, h2.1, hr, h2.2⟩]
    · rw [if_neg h2, if_neg (by omega)]
  · rw [if_neg h1, if_neg (by omega)]

lemma gridRows_setTile (g : Grid) (y x t : ℕ) : gridRows (setTile g y x t) = gridRows g := by
  simp [gridRows, setTile]

lemma gridCols_setTile (g : Grid) (y x t : ℕ) : gridCols (setTile g y x t) = gridCols g := by
  unfold gridCols setTile
  cases g with
  | nil => simp
  | cons row rest =>
    cases y with
    | zero => simp
    | succ y' => simp

lemma tileAtNat_blastCell (g : Grid) (bx yb : ℤ) (r c : ℕ) :
    tileAtNat (blastCell g bx yb) r c =
      if (r : ℤ) = yb ∧ (c : ℤ) = bx ∧ (c : ℤ) < (gridCols g : ℤ) ∧
          tileAtNat g r c = TileType.Stone
      then TileType.Empty else tileAtNat g r c := by
  unfold blastCell
  by_cases hg : 0 ≤ yb ∧ yb < (gridRows g : ℤ) ∧ 0 ≤ bx ∧ bx < (gridCols g : ℤ) ∧
      getTile g yb bx = TileType.Stone
  · rw [if_pos hg]
    obtain ⟨hy0, hyr, hx0, hxc, hstone⟩ := hg
    rw [tileAtNat_setTile]
    by_cases hit : (r : ℤ) = yb ∧ (c : ℤ) = bx
    · obtain ⟨hr, hc⟩ := hit
      have hrn : yb.toNat = r := by omega
      have hcn : bx.toNat = c := by omega
      have hstone' : tileAtNat g r c = TileType.Stone := by
        unfold getTile at hstone
        rw [hrn, hcn] at hstone
        exact hstone
      have hclen : c < (g.getD yb.toNat []).length := by
        by_contra hge
        push_neg at hge
        rw [hrn] at hge
        have : tileAtNat g r c = TileType.Empty := by
          unfold tileAtNat
          exact List.getD_eq_default _ _ hge
        rw [hstone'] at this
        exact absurd this (by decide)
      rw [if_pos ⟨hrn, hcn, by unfold gridRows at hyr; omega, hclen⟩,
        if_pos ⟨hr, hc, by omega, hstone'⟩]
    · have hno : ¬(yb.toNat = r ∧ bx.toNat = c ∧ yb.toNat < g.length ∧
          c < (g.getD yb.toNat []).length) := by
        rintro ⟨h1, h2, -, -⟩
        exact hit ⟨by omega, by omega⟩
      rw [if_neg hno, if_neg (by rintro ⟨h1, h2, -, -⟩; exact hit ⟨h1, h2⟩)]
  · rw [if_neg hg, if_neg ?_]
    rintro ⟨hr, hc, hcc, hstone⟩
    apply hg
    have hrow : r < g.length := by
      by_contra hge
      push_neg at hge
      have : tileAtNat g r c = TileType.Empty := by
        unfold tileAtNat
        rw [List.getD_eq_default _ _ hge]
        simp [TileType.Empty]
      rw [hstone] at this
      exact absurd this (by decide)
    refine ⟨by omega, by unfold gridRows; omega, by omega, by omega, ?_⟩
    unfold getTile
    have hrn : yb.toNat = r := by omega
    have hcn : bx.toNat = c := by omega
    rw [hrn, hcn]
    exact hstone

lemma gridRows_blastCell (g : Grid) (bx yb : ℤ) : gridRows (blastCell g bx yb) = gridRows g := by
  unfold blastCell
  split
  · rw [gridRows_setTile]
  · rfl

lemma gridCols_blastCell (g : Grid) (bx yb : ℤ) : gridCols (blastCell g bx yb) = gridCols g := by
  unfold blastCell
  split
  · rw [gridCols_setTile]
  · rfl

lemma tileAtNat_blast_fold (L : List (ℤ × ℤ)) :
    ∀ (g : Grid) (bx yb : ℤ) (r c : ℕ),
      tileAtNat (L.foldl (fun gg d => blastCell gg (bx + d.2) (yb + d.1)) g) r c =
        if (∃ d ∈ L, (r : ℤ) = yb + d.1 ∧ (c : ℤ) = bx + d.2) ∧
            (c : ℤ) < (gridCols g : ℤ) ∧ tileAtNat g r c = TileType.Stone
        then TileType.Empty else tileAtNat g r c := by
  induction L with
  | nil =>
    intro g bx yb r c
    simp
  | cons d L' ih =>
    intro g bx yb r c
    rw [List.foldl_cons, ih]
    rw [gridCols_blastCell, tileAtNat_blastCell]
    by_cases hP : (r : ℤ) = yb + d.1 ∧ (c : ℤ) = bx + d.2
    · by_cases hcs : (c : ℤ) < (gridCols g : ℤ) ∧ tileAtNat g r c = TileType.Stone
      · have hinner : (if (r : ℤ) = yb + d.1 ∧ (c : ℤ) = bx + d.2 ∧
              (c : ℤ) < (gridCols g : ℤ) ∧ tileAtNat g r c = TileType.Stone
            then TileType.Empty else tileAtNat g r c) = TileType.Empty :=
          if_pos ⟨hP.1, hP.2, hcs.1, hcs.2⟩
        rw [hinner]
        have houter : ¬((∃ e ∈ L', (r : ℤ) = yb + e.1 ∧ (c : ℤ) = bx + e.2) ∧
            (c : ℤ) < (gridCols g : ℤ) ∧ TileType.Empty = TileType.Stone) := by
          rintro ⟨-, -, hst⟩
          exact absurd hst (by decide)
        rw [if_neg houter,
          if_pos ⟨⟨d, List.mem_cons_self d L', hP⟩, hcs⟩]
      · have hinner : (if (r : ℤ) = yb + d.1 ∧ (c : ℤ) = bx + d.2 ∧
              (c : ℤ) < (gridCols g : ℤ) ∧ tileAtNat g r c = TileType.Stone
            then TileType.Empty else tileAtNat g r c) = tileAtNat g r c := by
          rw [if_neg]
          rintro ⟨-, -, hc1, hc2⟩
          exact hcs ⟨hc1, hc2⟩
        rw [hinner]
        rw [if_neg (by rintro ⟨-, hc1, hc2⟩; exact hcs ⟨hc1, hc2⟩),
          if_neg (by rintro ⟨-, hc1, hc2⟩; exact hcs ⟨hc1, hc2⟩)]
    · have hinner : (if (r : ℤ) = yb + d.1 ∧ (c : ℤ) = bx + d.2 ∧
            (c : ℤ) < (gridCols g : ℤ) ∧ tileAtNat g r c = TileType.Stone
          then TileType.Empty else tileAtNat g r c) = tileAtNat g r c := by
        rw [if_neg]
        rintro ⟨hc1, hc2, -, -⟩
        exact hP ⟨hc1, hc2⟩
      rw [hinner]
      by_cases hex : (∃ e ∈ L', (r : ℤ) = yb + e.1 ∧ (c : ℤ) = bx + e.2) ∧
          (c : ℤ) < (gridCols g : ℤ) ∧ tileAtNat g r c = TileType.Stone
      · obtain ⟨⟨e, he, hee⟩, hrest⟩ := hex
        rw [if_pos ⟨⟨e, he, hee⟩, hrest⟩,
          if_pos ⟨⟨e, List.mem_cons_of_mem d he, hee⟩, hrest⟩]
      · rw [if_neg hex, if_neg ?_]
        rintro ⟨⟨e, he, hee⟩, hrest⟩
        rcases List.mem_cons.mp he with rfl | he'
        · exact hP hee
        · exact hex ⟨⟨e, he', hee⟩, hrest⟩

lemma mem_blastOffsets (d : ℤ × ℤ) :
    d ∈ blastOffsets ↔ d.1.natAbs ≤ 2 ∧ d.2.natAbs ≤ 2 := by
  constructor
  · intro hd
    fin_cases hd <;> decide
  · obtain ⟨a, b⟩ := d
    rintro ⟨h1, h2⟩
    have ha : -2 ≤ a ∧ a ≤ 2 := by omega
    have hb : -2 ≤ b ∧ b ≤ 2 := by omega
    obtain ⟨ha1, ha2⟩ := ha
    obtain ⟨hb1, hb2⟩ := hb
    interval_cases a <;> interval_cases b <;> decide

lemma blastOffsets_hit (bx yb : ℤ) (r c : ℕ) :
    (∃ d ∈ blastOffsets, (r : ℤ) = yb + d.1 ∧ (c : ℤ) = bx + d.2) ↔
      ((r : ℤ) - yb).natAbs ≤ 2 ∧ ((c : ℤ) - bx).natAbs ≤ 2 := by
  constructor
  · rintro ⟨⟨dy, dx⟩, hd, h1, h2⟩
    have := (mem_blastOffsets (dy, dx)).mp hd
    omega
  · rintro ⟨h1, h2⟩
    refine ⟨((r : ℤ) - yb, (c : ℤ) - bx), ?_, by ring, by ring⟩
    exact (mem_blastOffsets _).mpr (by constructor <;> omega)

lemma tileAtNat_detonate (g : Grid) (bx yb : ℤ) (r c : ℕ) :
    tileAtNat (detonate g bx yb) r c =
      if ((r : ℤ) - yb).natAbs ≤ 2 ∧ ((c : ℤ) - bx).natAbs ≤ 2 ∧
          (c : ℤ) < (gridCols g : ℤ) ∧ tileAtNat g r c = TileType.Stone
      then TileType.Empty else tileAtNat g r c := by
  unfold detonate
  rw [tileAtNat_blast_fold]
  by_cases h : ((r : ℤ) - yb).natAbs ≤ 2 ∧ ((c : ℤ) - bx).natAbs ≤ 2
  · by_cases hrest : (c : ℤ) < (gridCols g : ℤ) ∧ tileAtNat g r c = TileType.Stone
    · rw [if_pos ⟨(blastOffsets_hit bx yb r c).mpr h, hrest⟩,
        if_pos ⟨h.1, h.2, hrest.1, hrest.2⟩]
    · rw [if_neg (by rintro ⟨-, hc1, hc2⟩; exact hrest ⟨hc1, hc2⟩),
        if_neg (by rintro ⟨-, -, hc1, hc2⟩; exact hrest ⟨hc1, hc2⟩)]
  · rw [if_neg (by rintro ⟨hex, -⟩; exact h ((blastOffsets_hit bx yb r c).mp hex)),
      if_neg (by rintro ⟨hc1, hc2, -⟩; exact h ⟨hc1, hc2⟩)]

/-- One application of the bomb stage as a pair transformer. -/
def bombStep (st : List PlacedBomb × Grid) : List PlacedBomb × Grid :=
  ((updatePlacedBombs st.1 st.2).bombs, (updatePlacedBombs st.1 st.2).grid)

lemma bombStep_single (bx yb t : ℤ) (g : Grid) :
    bombStep ([⟨bx, yb, t⟩], g) =
      if t - 1 ≤ 0 then ([], detonate g bx yb) else ([⟨bx, yb, t - 1⟩], g) := by
  unfold bombStep updatePlacedBombs
  simp only [List.foldl_cons, List.foldl_nil]
  by_cases h : t - 1 ≤ 0
  · rw [if_pos h, if_pos h]
  · rw [if_neg h, if_neg h]
    rfl

lemma bombStep_iter_detonates (bx yb : ℤ) (g : Grid) :
    ∀ M : ℕ, bombStep^[M + 1] ([⟨bx, yb, (M : ℤ) + 1⟩], g) = ([], detonate g bx yb) := by
  intro M
  induction M with
  | zero =>
    rw [Function.iterate_one, bombStep_single, if_pos (by norm_num)]
  | succ m ih =>
    have hstep : bombStep ([⟨bx, yb, ((m + 1 : ℕ) : ℤ) + 1⟩], g) = ([⟨bx, yb, (m : ℤ) + 1⟩], g) := by
      rw [bombStep_single, if_neg (by push_cast; omega)]
      have harg : ((m + 1 : ℕ) : ℤ) + 1 - 1 = (m : ℤ) + 1 := by push_cast; ring
      rw [harg]
    rw [Function.iterate_succ_apply, hstep]
    exact ih

/-- C3: a single placed explosive with countdown `N ≥ 1`, stepped `N`
times with no other interference, is removed, and the grid changes
exactly by turning every in-bounds Stone tile within Chebyshev
distance 2 of the bomb cell to Empty; all other tiles are unchanged. -/
theorem C3_bomb_detonation (bx yb : ℤ) (g : Grid) (N : ℕ) (hN : 1 ≤ N) :
    (bombStep^[N] ([⟨bx, yb, (N : ℤ)⟩], g)).1 = [] ∧
      ∀ r c : ℕ,
        tileAtNat (bombStep^[N] ([⟨bx, yb, (N : ℤ)⟩], g)).2 r c =
          if ((r : ℤ) - yb).natAbs ≤ 2 ∧ ((c : ℤ) - bx).natAbs ≤ 2 ∧
              (c : ℤ) < (gridCols g : ℤ) ∧ tileAtNat g r c = TileType.Stone
          then TileType.Empty else tileAtNat g r c := by
  obtain ⟨M, rfl⟩ : ∃ M, N = M + 1 := ⟨N - 1, by omega⟩
  have hit : bombStep^[M + 1] ([⟨bx, yb, ((M + 1 : ℕ) : ℤ)⟩], g) = ([], detonate g bx yb) := by
    rw [show (((M + 1 : ℕ) : ℤ)) = (M : ℤ) + 1 by push_cast; ring]
    exact bombStep_iter_detonates bx yb g M
  rw [hit]
  exact ⟨rfl, fun r c => tileAtNat_detonate g bx yb r c⟩

/-- A 4x6 all-Stone test grid with a Wall, a Lava and a Platform tile. -/
def C3grid : Grid := [[2,2,2,2,2,2],[2,1,2,3,2,2],[2,2,10,2,2,2],[2,2,2,2,2,2]]

/-- C3 witness: the theorem applied to a concrete bomb with countdown 2
on a concrete grid. -/
theorem C3_witness :
    (bombStep^[2] ([⟨2, 1, ((2 : ℕ) : ℤ)⟩], C3grid)).1 = [] ∧
      ∀ r c : ℕ,
        tileAtNat (bombStep^[2] ([⟨2, 1, ((2 : ℕ) : ℤ)⟩], C3grid)).2 r c =
          if ((r : ℤ) - 1).natAbs ≤ 2 ∧ ((c : ℤ) - 2).natAbs ≤ 2 ∧
              (c : ℤ) < (gridCols C3grid : ℤ) ∧ tileAtNat C3grid r c = TileType.Stone
          then TileType.Empty else tileAtNat C3grid r c :=
  C3_bomb_detonation 2 1 C3grid 2 (by norm_num)

/-! ### Fire-trap phase lemmas -/

lemma stepTrap_preserves (cols rows : ℕ) (t : FireTrapState) :
    (stepTrap cols rows t).restTime = t.restTime ∧
      (stepTrap cols rows t).sprayTime = t.sprayTime := by
  unfold stepTrap
  dsimp only
  split_ifs <;> simp

lemma stepTrap_exit_active (cols rows : ℕ) (t : FireTrapState) (ha : t.isActive = true)
    (ht : t.timer ≤ 1) (hr : 30 < t.restTime) :
    stepTrap cols rows t =
      { t with timer := t.restTime, isActive := false, warning := false, fireBlocks := [] } := by
  unfold stepTrap
  dsimp only
  rw [if_pos (by dsimp only; omega : ({ t with timer := t.timer - 1 } : FireTrapState).timer ≤ 0)]
  rw [if_pos (by dsimp only; rw [ha] : ({ t with timer := t.timer - 1 } : FireTrapState).isActive = true)]
  set R : FireTrapState :=
    { t with timer := t.restTime, isActive := false, warning := false, fireBlocks := [] } with hR
  have hC3 : ¬(R.isActive = false ∧ R.timer ≤ 30 ∧ R.timer > 0) := by
    rw [hR]
    rintro ⟨-, h2, h3⟩
    dsimp only at h2 h3
    omega
  rw [if_neg hC3]
  have hC4 : ¬(R.isActive = true) := by
    rw [hR]
    simp
  rw [if_neg hC4]
  rw [if_neg hC4]

lemma stepTrap_exit_active_warn (cols rows : ℕ) (t : FireTrapState) (ha : t.isActive = true)
    (ht : t.timer ≤ 1) (hr1 : 0 < t.restTime) (hr2 : t.restTime ≤ 30) :
    stepTrap cols rows t =
      { t with timer := t.restTime, isActive := false, warning := true, fireBlocks := [] } := by
  unfold stepTrap
  dsimp only
  rw [if_pos (by dsimp only; omega : ({ t with timer := t.timer - 1 } : FireTrapState).timer ≤ 0)]
  rw [if_pos (by dsimp only; rw [ha] : ({ t with timer := t.timer - 1 } : FireTrapState).isActive = true)]
  set R : FireTrapState :=
    { t with timer := t.restTime, isActive := false, warning := false, fireBlocks := [] } with hR
  have hC3 : R.isActive = false ∧ R.timer ≤ 30 ∧ R.timer > 0 := by
    rw [hR]
    exact ⟨rfl, by dsimp only; omega, by dsimp only; omega⟩
  rw [if_pos hC3]
  have hC5 : ¬(({ R with warning := true } : FireTrapState).isActive = true) := by
    rw [hR]
    simp
  rw [if_neg hC5]

lemma stepTrap_stay_active (cols rows : ℕ) (t : FireTrapState) (ha : t.isActive = true)
    (ht : 1 < t.timer) :
    (stepTrap cols rows t).isActive = true ∧ (stepTrap cols rows t).timer = t.timer - 1 := by
  unfold stepTrap
  dsimp only
  split_ifs <;> simp_all <;> omega

lemma stepTrap_enter_active (cols rows : ℕ) (t : FireTrapState) (ha : t.isActive = false)
    (ht : t.timer ≤ 1) :
    (stepTrap cols rows t).isActive = true := by
  unfold stepTrap
  dsimp only
  split_ifs <;> simp_all <;> omega

lemma stepTrap_stay_rest (cols rows : ℕ) (t : FireTrapState) (ha : t.isActive = false)
    (ht : 1 < t.timer) :
    (stepTrap cols rows t).isActive = false ∧ (stepTrap cols rows t).timer = t.timer - 1 := by
  unfold stepTrap
  dsimp only
  split_ifs <;> simp_all <;> omega

lemma stepTrap_warning_invariant (cols rows : ℕ) (t : FireTrapState)
    (hr1 : 0 < t.restTime) (hr2 : t.restTime ≤ 30)
    (hP : t.isActive = true ∨ t.warning = true) :
    (stepTrap cols rows t).isActive = true ∨ (stepTrap cols rows t).warning = true := by
  unfold stepTrap
  dsimp only
  split_ifs <;> simp_all <;> omega

lemma stepTrap_iter_restTime (cols rows : ℕ) (t : FireTrapState) :
    ∀ n : ℕ, ((stepTrap cols rows)^[n] t).restTime = t.restTime := by
  intro n
  induction n with
  | zero => rfl
  | succ k ih =>
    rw [Function.iterate_succ_apply', (stepTrap_preserves cols rows _).1, ih]

lemma trap_active_reaches_rest (cols rows : ℕ) :
    ∀ (k : ℕ) (t : FireTrapState), t.timer.toNat ≤ k → t.isActive = true → 30 < t.restTime →
      ∃ n : ℕ, 1 ≤ n ∧ ((stepTrap cols rows)^[n] t).isActive = false ∧
        ((stepTrap cols rows)^[n] t).warning = false := by
  intro k
  induction k with
  | zero =>
    intro t ht ha hr
    refine ⟨1, le_refl 1, ?_⟩
    rw [Function.iterate_one, stepTrap_exit_active cols rows t ha (by omega) hr]
    exact ⟨rfl, rfl⟩
  | succ k ih =>
    intro t ht ha hr
    by_cases hle : t.timer ≤ 1
    · refine ⟨1, le_refl 1, ?_⟩
      rw [Function.iterate_one, stepTrap_exit_active cols rows t ha hle hr]
      exact ⟨rfl, rfl⟩
    · push_neg at hle
      have hstay := stepTrap_stay_active cols rows t ha (by omega)
      have hrest : 30 < (stepTrap cols rows t).restTime := by
        rw [(stepTrap_preserves cols rows t).1]
        exact hr
      have htoNat : (stepTrap cols rows t).timer.toNat ≤ k := by
        rw [hstay.2]
        omega
      obtain ⟨n, hn1, hprop⟩ := ih (stepTrap cols rows t) htoNat hstay.1 hrest
      exact ⟨n + 1, by omega, by rw [Function.iterate_succ_apply]; exact hprop⟩

lemma trap_rest_reaches_active (cols rows : ℕ) :
    ∀ (k : ℕ) (t : FireTrapState), t.timer.toNat ≤ k → t.isActive = false →
      ∃ n : ℕ, 1 ≤ n ∧ ((stepTrap cols rows)^[n] t).isActive = true := by
  intro k
  induction k with
  | zero =>
    intro t ht ha
    exact ⟨1, le_refl 1, by
      rw [Function.iterate_one]
      exact stepTrap_enter_active cols rows t ha (by omega)⟩
  | succ k ih =>
    intro t ht ha
    by_cases hle : t.timer ≤ 1
    · exact ⟨1, le_refl 1, by
        rw [Function.iterate_one]
        exact stepTrap_enter_active cols rows t ha hle⟩
    · push_neg at hle
      have hstay := stepTrap_stay_rest cols rows t ha (by omega)
      have htoNat : (stepTrap cols rows t).timer.toNat ≤ k := by
        rw [hstay.2]
        omega
      obtain ⟨n, hn1, hprop⟩ := ih (stepTrap cols rows t) htoNat hstay.1
      exact ⟨n + 1, by omega, by rw [Function.iterate_succ_apply]; exact hprop⟩

/-- A fire trap with positive spray and rest durations whose rest
duration (10 ticks) is inside the 30-tick warning window. -/
def C7trap : FireTrapState := ⟨1, 1, FireTrapDirection.up, 1, 60, 10, 60, true, false, []⟩

/-- After every tick from `C7trap`, the trap is Active or Warning. -/
def alwaysActiveOrWarning (cols rows : ℕ) (t : FireTrapState) : Prop :=
  ∀ n : ℕ, ((stepTrap cols rows)^[n] t).isActive = true ∨
    ((stepTrap cols rows)^[n] t).warning = true

/-- C7 counterexample: the claim promises a return to Resting (not
Active, not Warning) for every positive spray and rest duration, but
a trap with rest duration 10 (positive, yet at most the 30-tick
warning window) is Active or Warning after every tick, forever. -/
theorem C7_counterexample :
    C7trap.restTime > 0 ∧ C7trap.sprayTime > 0 ∧ alwaysActiveOrWarning 5 3 C7trap := by
  refine ⟨by decide, by decide, ?_⟩
  intro n
  induction n with
  | zero => exact Or.inl rfl
  | succ k ih =>
    rw [Function.iterate_succ_apply']
    apply stepTrap_warning_invariant
    · rw [stepTrap_iter_restTime]
      decide
    · rw [stepTrap_iter_restTime]
      decide
    · exact ih

/-- C7 (amended): for every fire trap whose rest duration exceeds the
30-tick warning window, from any phase state, repeated stepping
reaches the plain Resting phase (not Active, not Warning) within
finitely many ticks; with a positive rest duration of at most 30
ticks the trap is Active or Warning after every tick instead. -/
theorem C7_trap_returns_to_rest (cols rows : ℕ) (t : FireTrapState)
    (hr : 30 < t.restTime) :
    ∃ n : ℕ, 1 ≤ n ∧ ((stepTrap cols rows)^[n] t).isActive = false ∧
      ((stepTrap cols rows)^[n] t).warning = false := by
  by_cases ha : t.isActive = true
  · exact trap_active_reaches_rest cols rows t.timer.toNat t (le_refl _) ha hr
  · have ha' : t.isActive = false := by
      simpa using ha
    obtain ⟨m, hm1, hact⟩ := trap_rest_reaches_active cols rows t.timer.toNat t (le_refl _) ha'
    have hr' : 30 < ((stepTrap cols rows)^[m] t).restTime := by
      rw [stepTrap_iter_restTime]
      exact hr
    obtain ⟨n, hn1, hprop⟩ := trap_active_reaches_rest cols rows
      ((stepTrap cols rows)^[m] t).timer.toNat ((stepTrap cols rows)^[m] t) (le_refl _) hact hr'
    refine ⟨n + m, by omega, ?_⟩
    rw [Function.iterate_add_apply]
    exact hprop

/-- An active fire trap with rest duration 120 (> 30). -/
def C7wtrap : FireTrapState := ⟨1, 1, FireTrapDirection.right, 2, 60, 120, 40, true, false, []⟩

/-- C7 witness: the amended theorem applied to a concrete trap. -/
theorem C7_witness :
    (30 : ℤ) < C7wtrap.restTime ∧
      ∃ n : ℕ, 1 ≤ n ∧ ((stepTrap 5 3)^[n] C7wtrap).isActive = false ∧
        ((stepTrap 5 3)^[n] C7wtrap).warning = false :=
  ⟨by decide, C7_trap_returns_to_rest 5 3 C7wtrap (by decide)⟩

/-! ### Monster patrol -/

/-- C8: for a monster whose grid column is within its patrol bounds,
a move that reaches the far bound (direction +1 reaching `c1`, or -1
reaching `c0`) reverses the direction and reverts the position, and
after any step the monster's grid column stays within the bounds. -/
theorem C8_monster_patrol (g : Grid) (traps : List FireTrapState) (m : MonsterState)
    (hin : m.patrol.1 ≤ Int.floor (m.x / TILE_SIZE) ∧
      Int.floor (m.x / TILE_SIZE) ≤ m.patrol.2) :
    (m.direction = 1 →
        Int.floor ((m.x + m.speed * (m.direction : ℚ)) / TILE_SIZE) ≥ m.patrol.2 →
        (stepMonsterMove g traps m).direction = -1 ∧ (stepMonsterMove g traps m).x = m.x) ∧
      (m.direction = -1 →
        Int.floor ((m.x + m.speed * (m.direction : ℚ)) / TILE_SIZE) ≤ m.patrol.1 →
        (stepMonsterMove g traps m).direction = 1 ∧ (stepMonsterMove g traps m).x = m.x) ∧
      m.patrol.1 ≤ Int.floor ((stepMonsterMove g traps m).x / TILE_SIZE) ∧
      Int.floor ((stepMonsterMove g traps m).x / TILE_SIZE) ≤ m.patrol.2 := by
  unfold stepMonsterMove
  dsimp only
  split_ifs with hc hd
  · exact ⟨fun _ _ => ⟨rfl, rfl⟩, fun hdm1 _ => absurd hd (by omega), hin.1, hin.2⟩
  · exact ⟨fun hd1 _ => absurd hd1 hd, fun _ _ => ⟨rfl, rfl⟩, hin.1, hin.2⟩
  · have hB : m.patrol.1 < Int.floor ((m.x + m.speed * (m.direction : ℚ)) / TILE_SIZE) := by
      by_contra hnot
      push_neg at hnot
      exact hc (Or.inr (Or.inl hnot))
    have hC : Int.floor ((m.x + m.speed * (m.direction : ℚ)) / TILE_SIZE) < m.patrol.2 := by
      by_contra hnot
      push_neg at hnot
      exact hc (Or.inr (Or.inr hnot))
    exact ⟨fun _ hge => absurd hge (not_le.mpr hC), fun _ hle => absurd hle (not_le.mpr hB),
      le_of_lt hB, le_of_lt hC⟩

/-- A monster one move short of its right patrol bound. -/
def C8monster : MonsterState := ⟨79, 40, (0, 2), 1, 3/2, 30, 30, 3⟩

/-- C8 witness: the theorem applied to a concrete monster inside its
patrol bounds. -/
theorem C8_witness :
    (C8monster.patrol.1 ≤ Int.floor (C8monster.x / TILE_SIZE) ∧
        Int.floor (C8monster.x / TILE_SIZE) ≤ C8monster.patrol.2) ∧
      ((C8monster.direction = 1 →
          Int.floor ((C8monster.x + C8monster.speed * (C8monster.direction : ℚ)) / TILE_SIZE) ≥
            C8monster.patrol.2 →
          (stepMonsterMove [[0]] [] C8monster).direction = -1 ∧
            (stepMonsterMove [[0]] [] C8monster).x = C8monster.x) ∧
        (C8monster.direction = -1 →
          Int.floor ((C8monster.x + C8monster.speed * (C8monster.direction : ℚ)) / TILE_SIZE) ≤
            C8monster.patrol.1 →
          (stepMonsterMove [[0]] [] C8monster).direction = 1 ∧
            (stepMonsterMove [[0]] [] C8monster).x = C8monster.x) ∧
        C8monster.patrol.1 ≤ Int.floor ((stepMonsterMove [[0]] [] C8monster).x / TILE_SIZE) ∧
        Int.floor ((stepMonsterMove [[0]] [] C8monster).x / TILE_SIZE) ≤ C8monster.patrol.2) :=
  have h : C8monster.patrol.1 ≤ Int.floor (C8monster.x / TILE_SIZE) ∧
      Int.floor (C8monster.x / TILE_SIZE) ≤ C8monster.patrol.2 := by
    norm_num [C8monster, TILE_SIZE]
  ⟨h, C8_monster_patrol [[0]] [] C8monster h⟩

/-! ### Collectible monotonicity -/

lemma collectItemStep_items (maxH : ℤ) (acc : CollectResult) (item : CollectibleState) :
    (collectItemStep maxH acc item).items =
      acc.items ++ [if item.collected = false ∧ checkCollision acc.player.rect item.rect = true
        then { item with collected := true } else item] := by
  unfold collectItemStep
  split_ifs with h
  · cases item.type <;> rfl
  · rfl

lemma collectItemStep_already (maxH : ℤ) (acc : CollectResult) (item : CollectibleState)
    (h : item.collected = true) :
    collectItemStep maxH acc item = { acc with items := acc.items ++ [item] } := by
  unfold collectItemStep
  rw [if_neg (by simp [h])]

lemma collect_items_shape (maxH : ℤ) :
    ∀ (items : List CollectibleState) (acc : CollectResult),
      ∃ out : List CollectibleState,
        (items.foldl (collectItemStep maxH) acc).items = acc.items ++ out ∧
          List.Forall₂ (fun a b => a.collected = true → b.collected = true) items out := by
  intro items
  induction items with
  | nil =>
    intro acc
    exact ⟨[], by simp, List.Forall₂.nil⟩
  | cons i t ih =>
    intro acc
    obtain ⟨out, hout, hf⟩ := ih (collectItemStep maxH acc i)
    refine ⟨(if i.collected = false ∧ checkCollision acc.player.rect i.rect = true
        then { i with collected := true } else i) :: out, ?_, ?_⟩
    · rw [List.foldl_cons, hout, collectItemStep_items]
      simp
    · refine List.Forall₂.cons ?_ hf
      split_ifs with h
      · intro _
        rfl
      · intro hcol
        exact hcol

lemma forall₂_collected_refl (l : List CollectibleState) :
    List.Forall₂ (fun a b => a.collected = true → b.collected = true) l l :=
  List.forall₂_same.mpr (fun _ _ h => h)

/-- C9: across a frame step, a collectible's collected flag never goes
from true back to false, the pipeline never modifies the door list at
all, the explicit door-opening action only turns open flags on, and a
collectible already marked collected produces no pickup effect (its
processing step only copies it through). -/
theorem C9_monotonic_flags (s : GameState) (k : KeyMap) :
    List.Forall₂ (fun a b => a.collected = true → b.collected = true)
      s.collectibles (updateGameFrame s k).1.collectibles ∧
      (updateGameFrame s k).1.doors = s.doors ∧
      List.Forall₂ (fun d d' => d.isOpen = true → d'.isOpen = true)
        s.doors (tryOpenDoor s).1.doors ∧
      (∀ (maxH : ℤ) (acc : CollectResult) (item : CollectibleState), item.collected = true →
        collectItemStep maxH acc item = { acc with items := acc.items ++ [item] }) := by
  refine ⟨?_, ?_, ?_, fun maxH acc item h => collectItemStep_already maxH acc item h⟩
  · unfold updateGameFrame
    split_ifs with hg hd
    · exact forall₂_collected_refl _
    · exact forall₂_collected_refl _
    · show List.Forall₂ _ s.collectibles (collectItems _ s.collectibles _ _ _ _ _).items
      unfold collectItems
      obtain ⟨out, hout, hf⟩ := collect_items_shape s.maxHealth s.collectibles _
      rw [hout]
      simpa using hf
  · unfold updateGameFrame
    split_ifs with hg hd <;> rfl
  · have h1 : (tryOpenDoor s).1.doors = (openScan s.player s.doors s.keys).1 := by
      simp [tryOpenDoor, foldl_tryOpenDoorStep_eq]
    rw [h1]
    exact (openScan_mono s.player s.doors s.keys).imp (fun a b h => h.1)

/-! ### Damage accounting -/

lemma updateMonsters_fold_damage (g : Grid) (traps : List FireTrapState) (player : PlayerState) :
    ∀ (monsters : List MonsterState) (acc : MonstersResult),
      ((monsters.foldl (updateMonstersStep g traps player) acc).health = acc.health ∧
        (monsters.foldl (updateMonstersStep g traps player) acc).damageTimer = acc.damageTimer) ∨
      (acc.damageTimer = 0 ∧
        (monsters.foldl (updateMonstersStep g traps player) acc).health = acc.health - 1 ∧
        (monsters.foldl (updateMonstersStep g traps player) acc).damageTimer = 60) := by
  intro monsters
  induction monsters with
  | nil =>
    intro acc
    exact Or.inl ⟨rfl, rfl⟩
  | cons m t ih =>
    intro acc
    rw [List.foldl_cons]
    by_cases hc : checkCollision player.rect (stepMonsterMove g traps m).rect = true ∧
        acc.damageTimer = 0
    · have hstep : updateMonstersStep g traps player acc m =
          { acc with monsters := acc.monsters ++ [stepMonsterMove g traps m],
                     health := acc.health - 1, damageTimer := 60, tookDamage := true } := by
        unfold updateMonstersStep
        rw [if_pos hc]
      rw [hstep]
      have hrec := ih ⟨acc.monsters ++ [stepMonsterMove g traps m], acc.health - 1, 60, true⟩
      rcases hrec with ⟨e1, e2⟩ | ⟨e0, -, -⟩
      · exact Or.inr ⟨hc.2, e1, e2⟩
      · exact absurd e0 (by simp)
    · have hstep : updateMonstersStep g traps player acc m =
          { acc with monsters := acc.monsters ++ [stepMonsterMove g traps m] } := by
        unfold updateMonstersStep
        rw [if_neg hc]
      rw [hstep]
      have hrec := ih ⟨acc.monsters ++ [stepMonsterMove g traps m], acc.health, acc.damageTimer,
        acc.tookDamage⟩
      rcases hrec with ⟨e1, e2⟩ | ⟨e0, e1, e2⟩
      · exact Or.inl ⟨e1, e2⟩
      · exact Or.inr ⟨e0, e1, e2⟩

lemma updateMonsters_damage (g : Grid) (traps : List FireTrapState) (player : PlayerState)
    (monsters : List MonsterState) (h dt : ℤ) :
    ((updateMonsters g traps player monsters h dt).health = h ∧
      (updateMonsters g traps player monsters h dt).damageTimer = dt) ∨
    (dt = 0 ∧ (updateMonsters g traps player monsters h dt).health = h - 1 ∧
      (updateMonsters g traps player monsters h dt).damageTimer = 60) :=
  updateMonsters_fold_damage g traps player monsters ⟨[], h, dt, false⟩

lemma updateFireTraps_fold_damage (g : Grid) :
    ∀ (traps : List FireTrapState) (acc : FireResult),
      ((traps.foldl (updateFireTrapsStep g) acc).health = acc.health ∧
        (traps.foldl (updateFireTrapsStep g) acc).damageTimer = acc.damageTimer) ∨
      (acc.damageTimer ≤ 0 ∧
        (traps.foldl (updateFireTrapsStep g) acc).health = acc.health - 1 ∧
        (traps.foldl (updateFireTrapsStep g) acc).damageTimer = 60) := by
  intro traps
  induction traps with
  | nil =>
    intro acc
    exact Or.inl ⟨rfl, rfl⟩
  | cons tr t ih =>
    intro acc
    rw [List.foldl_cons]
    by_cases hc : (stepTrap (gridCols g) (gridRows g) tr).isActive = true ∧ acc.damageTimer ≤ 0 ∧
        (stepTrap (gridCols g) (gridRows g) tr).fireBlocks.any
          (fun fb => checkCollision acc.player.rect (tileBox fb.x fb.y)) = true
    · have hstep : updateFireTrapsStep g acc tr =
          { acc with traps := acc.traps ++ [stepTrap (gridCols g) (gridRows g) tr],
                     player := { acc.player with shaking := true, shakeTimer := 30 },
                     health := acc.health - 1, damageTimer := 60, tookDamage := true } := by
        unfold updateFireTrapsStep
        rw [if_pos hc]
      rw [hstep]
      have hrec := ih ⟨acc.traps ++ [stepTrap (gridCols g) (gridRows g) tr],
        { acc.player with shaking := true, shakeTimer := 30 }, acc.health - 1, 60, true⟩
      rcases hrec with ⟨e1, e2⟩ | ⟨e0, -, -⟩
      · exact Or.inr ⟨hc.2.1, e1, e2⟩
      · exact absurd e0 (by simp)
    · have hstep : updateFireTrapsStep g acc tr =
          { acc with traps := acc.traps ++ [stepTrap (gridCols g) (gridRows g) tr] } := by
        unfold updateFireTrapsStep
        rw [if_neg hc]
      rw [hstep]
      have hrec := ih ⟨acc.traps ++ [stepTrap (gridCols g) (gridRows g) tr], acc.player,
        acc.health, acc.damageTimer, acc.tookDamage⟩
      rcases hrec with ⟨e1, e2⟩ | ⟨e0, e1, e2⟩
      · exact Or.inl ⟨e1, e2⟩
      · exact Or.inr ⟨e0, e1, e2⟩

lemma updateFireTraps_damage (g : Grid) (traps : List FireTrapState) (player : PlayerState)
    (h dt : ℤ) :
    ((updateFireTraps g traps player h dt).health = h ∧
      (updateFireTraps g traps player h dt).damageTimer = dt) ∨
    (dt ≤ 0 ∧ (updateFireTraps g traps player h dt).health = h - 1 ∧
      (updateFireTraps g traps player h dt).damageTimer = 60) :=
  updateFireTraps_fold_damage g traps ⟨[], player, h, dt, false⟩

lemma handleLavaDamage_damage (g : Grid) (player : PlayerState) (h dt : ℤ) :
    (dt > 0 ∧ (handleLavaDamage g player h dt).health = h ∧
      (handleLavaDamage g player h dt).damageTimer = dt - 1) ∨
    (dt ≤ 0 ∧ (handleLavaDamage g player h dt).health = h ∧
      (handleLavaDamage g player h dt).damageTimer = dt) ∨
    (dt ≤ 0 ∧ (handleLavaDamage g player h dt).health = h - 1 ∧
      (handleLavaDamage g player h dt).damageTimer = 60) := by
  unfold handleLavaDamage
  dsimp only
  split_ifs with h1 h2 h3 <;> simp_all <;> omega

lemma collectItemStep_health (maxH : ℤ) (acc : CollectResult) (item : CollectibleState) :
    (collectItemStep maxH acc item).health = acc.health ∨
      (collectItemStep maxH acc item).health = min maxH (acc.health + 1) := by
  unfold collectItemStep
  split_ifs with h
  · cases item.type <;> simp
  · exact Or.inl rfl

lemma frameFire_health_ge (s : GameState) (k : KeyMap) :
    s.health - 1 ≤ (frameFire s k).health := by
  have hm : ((frameMonsters s k).health = s.health ∧
      (frameMonsters s k).damageTimer = s.damageTimer) ∨
      (s.damageTimer = 0 ∧ (frameMonsters s k).health = s.health - 1 ∧
        (frameMonsters s k).damageTimer = 60) :=
    updateMonsters_damage s.grid s.firetraps (framePlayerMoved s k) s.monsters s.health
      s.damageTimer
  have hl : ((frameMonsters s k).damageTimer > 0 ∧
      (frameLava s k).health = (frameMonsters s k).health ∧
      (frameLava s k).damageTimer = (frameMonsters s k).damageTimer - 1) ∨
      ((frameMonsters s k).damageTimer ≤ 0 ∧
        (frameLava s k).health = (frameMonsters s k).health ∧
        (frameLava s k).damageTimer = (frameMonsters s k).damageTimer) ∨
      ((frameMonsters s k).damageTimer ≤ 0 ∧
        (frameLava s k).health = (frameMonsters s k).health - 1 ∧
        (frameLava s k).damageTimer = 60) :=
    handleLavaDamage_damage s.grid (framePlayerMoved s k) (frameMonsters s k).health
      (frameMonsters s k).damageTimer
  have hf : ((frameFire s k).health = (frameLava s k).health ∧
      (frameFire s k).damageTimer = (frameLava s k).damageTimer) ∨
      ((frameLava s k).damageTimer ≤ 0 ∧
        (frameFire s k).health = (frameLava s k).health - 1 ∧
        (frameFire s k).damageTimer = 60) :=
    updateFireTraps_damage s.grid s.firetraps (frameLava s k).player (frameLava s k).health
      (frameLava s k).damageTimer
  omega

lemma collectItems_fold_health (maxH : ℤ) :
    ∀ (items : List CollectibleState) (acc : CollectResult),
      min acc.health maxH ≤ (items.foldl (collectItemStep maxH) acc).health := by
  intro items
  induction items with
  | nil =>
    intro acc
    exact min_le_left _ _
  | cons i t ih =>
    intro acc
    rw [List.foldl_cons]
    have hh := collectItemStep_health maxH acc i
    have hrec := ih (collectItemStep maxH acc i)
    rcases hh with hh | hh <;> omega

/-! ### Concrete frame scenarios -/

/-- The all-keys-up input map. -/
def keysNone : KeyMap := ⟨false, false, false, false, false, false⟩

/-- A 30x30 player standing near the middle of a small level. -/
def basePlayer : PlayerState := ⟨45, 45, 30, 30, 0, 0, false, false, false, false, 0⟩

/-- A monster overlapping the player's cell, patrolling columns 0-2. -/
def deathMonster : MonsterState := ⟨44, 45, (0, 2), 1, 3/2, 30, 30, 3⟩

/-- An active upward trap below the player, mid-spray. -/
def deathTrap : FireTrapState := ⟨1, 2, FireTrapDirection.up, 1, 60, 60, 50, true, false, []⟩

/-- A snapshot at one health with an expired damage cooldown, a monster
in contact and a fire trap spraying the player's cell: two simultaneous
damage sources. -/
def deathState : GameState :=
  { keys := 0, ammo := 0, bombCount := 0, deaths := 0, health := 1, maxHealth := 5,
    damageTimer := 0, grid := [[0,0,0],[0,0,0],[0,0,0]], monsters := [deathMonster],
    collectibles := [], doors := [], bullets := [], placedBombs := [],
    firetraps := [deathTrap], goalPos := none, player := basePlayer, animationFrame := 0 }

/-- The player after the movement stages of a `deathState` tick. -/
def movedPlayer : PlayerState := ⟨45, 91/2, 30, 30, 0, 1/2, false, false, false, false, 0⟩

/-- The monster after its move in a `deathState` tick. -/
def movedMonster : MonsterState := ⟨91/2, 45, (0, 2), 1, 3/2, 30, 30, 3⟩

set_option maxHeartbeats 1000000 in
lemma deathE1 : framePlayerMoved deathState keysNone = movedPlayer := by
  norm_num [framePlayerMoved, movePlayerHorizontal, applyGravity, handleTileCollisions,
    neighborhoodOffsets, playerSolidTile, getTile, gridRows, gridCols, tileBox,
    checkCollision, resolveCollision, PlayerState.rect, TILE_SIZE, GRAVITY, MOVE_SPEED,
    deathState, basePlayer, deathTrap, keysNone, movedPlayer, min_def, TileType.Wall,
    TileType.Stone, TileType.Lava, TileType.Platform, TileType.Empty]

set_option maxHeartbeats 1000000 in
lemma deathE2 : frameMonsters deathState keysNone = ⟨[movedMonster], 0, 60, true⟩ := by
  unfold frameMonsters
  rw [deathE1]
  norm_num [updateMonsters, updateMonstersStep, stepMonsterMove, monsterScanOffsets,
    monsterSolidTile, getTile, gridRows, gridCols, tileBox, checkCollision,
    PlayerState.rect, MonsterState.rect, TILE_SIZE, deathState, movedPlayer, deathMonster,
    movedMonster, deathTrap, TileType.Wall, TileType.Stone, TileType.Platform,
    TileType.Empty]

set_option maxHeartbeats 1000000 in
lemma deathE3 : frameLava deathState keysNone = ⟨movedPlayer, 0, 59, false⟩ := by
  unfold frameLava
  rw [deathE1, deathE2]
  norm_num [handleLavaDamage]

set_option maxHeartbeats 1000000 in
lemma deathE4 : frameFire deathState keysNone =
    ⟨[⟨1, 2, FireTrapDirection.up, 1, 60, 60, 49, true, false, [⟨1, 1⟩]⟩], movedPlayer,
      0, 59, false⟩ := by
  unfold frameFire
  rw [deathE3]
  norm_num [updateFireTraps, updateFireTrapsStep, stepTrap, trapFireBlocks, getTile,
    gridRows, gridCols, tileBox, checkCollision, PlayerState.rect, TILE_SIZE,
    deathState, movedPlayer, deathTrap, Int.fdiv, min_def,
    show List.range 1 = [0] from rfl]

lemma deathE5 : frameTookDamage deathState keysNone = true := by
  unfold frameTookDamage
  rw [deathE2, deathE3, deathE4]
  rfl

/-- C2: in any tick the player's health drops by at most one unit (the
shared cooldown gates every damage stage); in `deathState` — health 1,
cooldown expired, with both monster contact and a hazard overlap in
the same tick — the monster stage alone damages, the fire overlap is
suppressed by the refreshed cooldown, health ends at exactly 0 and the
tick reports the player-died event. -/
theorem C2_single_damage_per_tick (s : GameState) (k : KeyMap)
    (h : s.health ≤ s.maxHealth) :
    s.health - 1 ≤ (updateGameFrame s k).1.health ∧
      deathState.health = 1 ∧ deathState.damageTimer = 0 ∧
      (frameMonsters deathState keysNone).tookDamage = true ∧
      ((frameFire deathState keysNone).traps.any (fun tr => tr.fireBlocks.any
        (fun fb => checkCollision (frameFire deathState keysNone).player.rect
          (tileBox fb.x fb.y)))) = true ∧
      (updateGameFrame deathState keysNone).1.health = 0 ∧
      (updateGameFrame deathState keysNone).2.playerDied = true := by
  have hfinal : (updateGameFrame deathState keysNone).2.playerDied = true ∧
      (updateGameFrame deathState keysNone).1.health = 0 := by
    rw [updateGameFrame, if_neg (by simp [deathState]), if_pos ⟨deathE5, by rw [deathE4]⟩]
    exact ⟨rfl, by rw [deathE4]⟩
  refine ⟨?_, rfl, rfl, by rw [deathE2], ?_, hfinal.2, hfinal.1⟩
  · have hge := frameFire_health_ge s k
    have hcol : min (frameFire s k).health s.maxHealth ≤ (frameCollect s k).health :=
      collectItems_fold_health s.maxHealth s.collectibles
        ⟨[], handleDoorCollisions s.doors (frameFire s k).player, s.keys, s.ammo,
          s.bombCount, (frameFire s k).health, false⟩
    unfold updateGameFrame
    split_ifs with hg hd
    · dsimp only
      omega
    · dsimp only
      omega
    · dsimp only
      omega
  · rw [deathE4]
    norm_num [checkCollision, PlayerState.rect, tileBox, TILE_SIZE, movedPlayer]

/-- C2 witness: the general at-most-one-unit bound instantiated on the
two-damage-sources snapshot. -/
theorem C2_witness :
    deathState.health ≤ deathState.maxHealth ∧
      deathState.health - 1 ≤ (updateGameFrame deathState keysNone).1.health :=
  ⟨by decide, (C2_single_damage_per_tick deathState keysNone (by decide)).1⟩

/-- C5: a tick on which the damage stages report damage and leave
health at or below zero takes the early-exit branch: the death counter
increments, the player-died and damage-taken events are reported, and
the door list, collectibles, bullets, placed explosives, grid,
animation counter, keys and ammo all pass through unchanged, with all
later-stage events off. -/
theorem C5_death_early_exit (s : GameState) (k : KeyMap)
    (hg : s.grid ≠ [])
    (hd : frameTookDamage s k = true ∧ (frameFire s k).health ≤ 0) :
    (updateGameFrame s k).1.deaths = s.deaths + 1 ∧
      (updateGameFrame s k).2.playerDied = true ∧
      (updateGameFrame s k).2.tookDamage = true ∧
      (updateGameFrame s k).1.doors = s.doors ∧
      (updateGameFrame s k).1.collectibles = s.collectibles ∧
      (updateGameFrame s k).1.bullets = s.bullets ∧
      (updateGameFrame s k).1.placedBombs = s.placedBombs ∧
      (updateGameFrame s k).1.grid = s.grid ∧
      (updateGameFrame s k).1.animationFrame = s.animationFrame ∧
      (updateGameFrame s k).1.keys = s.keys ∧
      (updateGameFrame s k).1.ammo = s.ammo ∧
      (updateGameFrame s k).2.bombExploded = false ∧
      (updateGameFrame s k).2.itemCollected = false ∧
      (updateGameFrame s k).2.levelComplete = false := by
  unfold updateGameFrame
  rw [if_neg hg, if_pos hd]
  exact ⟨rfl, rfl, rfl, rfl, rfl, rfl, rfl, rfl, rfl, rfl, rfl, rfl, rfl, rfl⟩

/-- C5 witness: the early-exit facts on the lethal-tick snapshot. -/
theorem C5_witness :
    deathState.grid ≠ [] ∧
      (frameTookDamage deathState keysNone = true ∧
        (frameFire deathState keysNone).health ≤ 0) ∧
      (updateGameFrame deathState keysNone).1.deaths = deathState.deaths + 1 ∧
      (updateGameFrame deathState keysNone).2.playerDied = true := by
  have hg : deathState.grid ≠ [] := by simp [deathState]
  have hd : frameTookDamage deathState keysNone = true ∧
      (frameFire deathState keysNone).health ≤ 0 := ⟨deathE5, by rw [deathE4]⟩
  have hth := C5_death_early_exit deathState keysNone hg hd
  exact ⟨hg, hd, hth.1, hth.2.1⟩

/-- A quiet snapshot: one bomb one tick from detonation, no damage
source anywhere near the player. -/
def calmState : GameState :=
  { keys := 0, ammo := 0, bombCount := 0, deaths := 0, health := 5, maxHealth := 5,
    damageTimer := 0, grid := [[0,0,0],[0,0,0],[0,0,0]], monsters := [],
    collectibles := [], doors := [], bullets := [], placedBombs := [⟨1, 1, 1⟩],
    firetraps := [], goalPos := none, player := basePlayer, animationFrame := 0 }

/-- C4: on a live tick (non-empty grid, no death early-exit) the
explosive-detonated event flag is true exactly when some placed
explosive's countdown reaches zero this tick, and it equals the
modelled detonation predicate over the input bomb list. -/
theorem C4_bombExploded_event (s : GameState) (k : KeyMap)
    (hg : s.grid ≠ [])
    (hd : ¬(frameTookDamage s k = true ∧ (frameFire s k).health ≤ 0)) :
    ((updateGameFrame s k).2.bombExploded = true ↔
        ∃ b ∈ s.placedBombs, b.timer - 1 ≤ 0) ∧
      (updateGameFrame s k).2.bombExploded = updatePlacedBombsExploded s.placedBombs := by
  unfold updateGameFrame
  rw [if_neg hg, if_neg hd]
  refine ⟨?_, rfl⟩
  show updatePlacedBombsExploded s.placedBombs = true ↔ _
  simp [updatePlacedBombsExploded]

/-- C4 witness: the detonation-event equivalence on a quiet snapshot
holding a bomb whose countdown reaches zero. -/
theorem C4_witness :
    calmState.grid ≠ [] ∧
      ¬(frameTookDamage calmState keysNone = true ∧
        (frameFire calmState keysNone).health ≤ 0) ∧
      ((updateGameFrame calmState keysNone).2.bombExploded = true ↔
        ∃ b ∈ calmState.placedBombs, b.timer - 1 ≤ 0) := by
  have hg : calmState.grid ≠ [] := by simp [calmState]
  have hd : ¬(frameTookDamage calmState keysNone = true ∧
      (frameFire calmState keysNone).health ≤ 0) := by
    rintro ⟨-, hb⟩
    have hge := frameFire_health_ge calmState keysNone
    have h5 : calmState.health = 5 := rfl
    omega
  exact ⟨hg, hd, (C4_bombExploded_event calmState keysNone hg hd).1⟩

lemma updateFireTrapsStep_traps (g : Grid) (acc : FireResult) (tr : FireTrapState) :
    (updateFireTrapsStep g acc tr).traps =
      acc.traps ++ [stepTrap (gridCols g) (gridRows g) tr] := by
  unfold updateFireTrapsStep
  dsimp only
  split_ifs <;> rfl

lemma updateFireTraps_fold_traps (g : Grid) :
    ∀ (traps : List FireTrapState) (acc : FireResult),
      (traps.foldl (updateFireTrapsStep g) acc).traps =
        acc.traps ++ traps.map (stepTrap (gridCols g) (gridRows g)) := by
  intro traps
  induction traps with
  | nil =>
    intro acc
    simp
  | cons tr t ih =>
    intro acc
    rw [List.foldl_cons, List.map_cons, ih, updateFireTrapsStep_traps]
    simp

lemma updateFireTraps_dims (g g' : Grid) (hr : gridRows g = gridRows g')
    (hc : gridCols g = gridCols g') (traps : List FireTrapState) (p : PlayerState)
    (h dt : ℤ) : updateFireTraps g traps p h dt = updateFireTraps g' traps p h dt := by
  have hstep : updateFireTrapsStep g = updateFireTrapsStep g' := by
    funext acc tr
    unfold updateFireTrapsStep
    rw [hr, hc]
  unfold updateFireTraps
  rw [hstep]

/-- A level with a Wall cell at column 2, row 1. -/
def wallGrid : Grid := [[0,0,0,0],[0,0,1,0],[0,0,0,0]]

/-- An active leftward trap at column 3, row 1, spraying across the
wall cell. -/
def wallTrap : FireTrapState := ⟨3, 1, FireTrapDirection.left, 2, 60, 60, 50, true, false, []⟩

set_option maxHeartbeats 1000000 in
lemma wallFire_eval : updateFireTraps wallGrid [wallTrap] basePlayer 5 0 =
    ⟨[⟨3, 1, FireTrapDirection.left, 2, 60, 60, 49, true, false, [⟨2, 1⟩, ⟨1, 1⟩]⟩],
      { basePlayer with shaking := true, shakeTimer := 30 }, 4, 60, true⟩ := by
  have hs : stepTrap (gridCols wallGrid) (gridRows wallGrid) wallTrap =
      ⟨3, 1, FireTrapDirection.left, 2, 60, 60, 49, true, false, [⟨2, 1⟩, ⟨1, 1⟩]⟩ := by
    decide
  show updateFireTrapsStep wallGrid ⟨[], basePlayer, 5, 0, false⟩ wallTrap = _
  unfold updateFireTrapsStep
  dsimp only
  rw [hs]
  norm_num [checkCollision, PlayerState.rect, tileBox, TILE_SIZE, basePlayer]

/-- C10: the fire-trap stage reads the grid only through its
dimensions — two grids of equal size produce identical results, and
the returned trap list is a pure per-trap map over (cols, rows); in a
concrete level, a leftward spray occupies the Wall cell in its path
and the cell beyond it, and a player behind the wall takes fire damage
through the solid terrain. -/
theorem C10_fire_ignores_terrain :
    (∀ (g g' : Grid) (traps : List FireTrapState) (p : PlayerState) (h dt : ℤ),
        gridRows g = gridRows g' → gridCols g = gridCols g' →
          updateFireTraps g traps p h dt = updateFireTraps g' traps p h dt) ∧
      (∀ (g : Grid) (traps : List FireTrapState) (p : PlayerState) (h dt : ℤ),
        (updateFireTraps g traps p h dt).traps =
          traps.map (stepTrap (gridCols g) (gridRows g))) ∧
      getTile wallGrid 1 2 = TileType.Wall ∧
      (stepTrap (gridCols wallGrid) (gridRows wallGrid) wallTrap).fireBlocks =
        [⟨2, 1⟩, ⟨1, 1⟩] ∧
      (updateFireTraps wallGrid [wallTrap] basePlayer 5 0).tookDamage = true ∧
      (updateFireTraps wallGrid [wallTrap] basePlayer 5 0).health = 4 := by
  refine ⟨fun g g' traps p h dt hr hc => updateFireTraps_dims g g' hr hc traps p h dt,
    fun g traps p h dt => updateFireTraps_fold_traps g traps ⟨[], p, h, dt, false⟩,
    by decide, by decide, by rw [wallFire_eval], by rw [wallFire_eval]⟩

end TLP
